import Mathlib

/-!
Verification of the mcp-blackboard shared-memory / fetch-cache core.

The definitions below are a shallow embedding of the repository's Python
sources:

  * `src/common.py`            — `validate_key`, `get_storage_opts`
  * `src/models.py`            — `Plan` / `PlanStep` pydantic models
  * `src/tools/memory.py`      — the Redis-backed blackboard store
  * `src/tools/context.py`     — the fetch/convert/cache pipeline
  * `src/server.py`            — `save_plan`, `remove_stale_files`

External collaborators (the Redis server, the `fsspec` filesystems, the
`markitdown` converter, `json.loads`, the md5 digest) are modelled as
explicit state or as function parameters, mirroring the repository's own
unit tests which mock exactly those boundaries.  Machine time is a `Nat`
clock passed explicitly; TTLs are absolute expiry instants.
-/

namespace MCPBlackboard

/-! ## JSON values and Python `json.dumps`

`JVal` models the Python values that flow through `json.loads` /
`json.dumps` and the Redis JSON API.  Numbers are restricted to integers
(the repository only ever stores ints). -/

inductive JVal where
  | jnull
  | jbool (b : Bool)
  | jnum (n : Int)
  | jstr (s : String)
  | jarr (elems : List JVal)
  | jobj (fields : List (String × JVal))

/-- Four lowercase hex digits, as produced by Python's `\uXXXX` escapes. -/
def hex4 (n : Nat) : String :=
  let d := fun (k : Nat) => String.singleton (Nat.digitChar (n / 16 ^ k % 16))
  d 3 ++ d 2 ++ d 1 ++ d 0

/-- `json.dumps` escaping for one character (default `ensure_ascii=True`). -/
def pyQuoteChar (c : Char) : String :=
  if c = '"' then "\\\""
  else if c = '\\' then "\\\\"
  else if c = '\n' then "\\n"
  else if c = '\t' then "\\t"
  else if c = '\r' then "\\r"
  else if c = '\x08' then "\\b"
  else if c = '\x0c' then "\\f"
  else if c.toNat < 32 ∨ c.toNat > 126 then "\\u" ++ hex4 c.toNat
  else String.singleton c

/-- A Python/JSON double-quoted string literal. -/
def pyQuote (s : String) : String :=
  "\"" ++ String.join (s.toList.map pyQuoteChar) ++ "\""

mutual

/-- Python `json.dumps` with its default separators (`", "` and `": "`). -/
def JVal.dumps : JVal → String
  | JVal.jnull => "null"
  | JVal.jbool b => if b then "true" else "false"
  | JVal.jnum n => toString n
  | JVal.jstr s => pyQuote s
  | JVal.jarr xs => "[" ++ JVal.dumpsArr xs ++ "]"
  | JVal.jobj fs => "\x7b" ++ JVal.dumpsObj fs ++ "\x7d"
termination_by structural v => v

def JVal.dumpsArr : List JVal → String
  | [] => ""
  | [x] => JVal.dumps x
  | x :: y :: xs => JVal.dumps x ++ ", " ++ JVal.dumpsArr (y :: xs)
termination_by structural l => l

def JVal.dumpsObj : List (String × JVal) → String
  | [] => ""
  | [(k, v)] => pyQuote k ++ ": " ++ JVal.dumps v
  | (k, v) :: f :: fs => pyQuote k ++ ": " ++ JVal.dumps v ++ ", " ++ JVal.dumpsObj (f :: fs)
termination_by structural l => l

end

/-! ## Python string primitives

Structurally recursive models of the Python string operations the sources
use (`str.split`, `str.replace`, `str.lower`, `str.endswith`), so that
every definition below evaluates inside the kernel. -/

/-- Worker for `pySplit`: one unit of fuel per consumed character. -/
def pySplitGo (sep : List Char) : Nat → List Char → List Char → List (List Char)
  | _, acc, [] => [acc.reverse]
  | 0, acc, cs => [acc.reverse ++ cs]  -- unreachable when fuel ≥ cs.length
  | fuel + 1, acc, c :: cs =>
    if sep.isPrefixOf (c :: cs) then
      acc.reverse :: pySplitGo sep fuel [] ((c :: cs).drop sep.length)
    else
      pySplitGo sep fuel (c :: acc) cs

/-- Python `s.split(sep)` for a non-empty separator: leftmost,
non-overlapping, keeping empty fragments (`"".split(x) == [""]`). -/
def pySplit (s sep : String) : List String :=
  (pySplitGo sep.toList s.toList.length [] s.toList).map String.mk

/-- Python `s.replace(pat, rep)` for a non-empty pattern
(split on the pattern, join with the replacement). -/
def pyReplace (s pat rep : String) : String :=
  String.intercalate rep (pySplit s pat)

/-- Python `s.lower()` (ASCII case folding suffices for the key schema). -/
def strLower (s : String) : String :=
  String.mk (s.toList.map Char.toLower)

/-- Python `s.endswith(suffix)`. -/
def strEndsWith (s suffix : String) : Bool :=
  suffix.toList.isSuffixOf s.toList

/-! ## The Redis store

The blackboard uses three Redis value types: JSON documents
(`client.json().set/get`), hashes (`hset`/`hgetall`) and plain values
(`set`/`get`).  `decode_responses=True` is configured, so plain values read
back as the value that was stored.  Expiry is modelled exactly as Redis
enforces it: `expire k t` at time `now` makes the key absent for every
access at time `≥ now + t`. -/

inductive RVal where
  | rjson (doc : JVal)
  | rhash (fields : List (String × String))
  | rstr (v : JVal)

structure REntry where
  val : RVal
  expireAt : Option Nat

structure Redis where
  entries : List (String × REntry)

def Redis.empty : Redis := ⟨[]⟩

def Redis.find (r : Redis) (k : String) : Option REntry :=
  r.entries.lookup k

/-- Replace-or-insert a key (physical store update). -/
def Redis.setEntry (r : Redis) (k : String) (e : REntry) : Redis :=
  ⟨(k, e) :: r.entries.filter (fun p => !(p.1 == k))⟩

/-- A key's entry, `none` if the key is absent or has expired. -/
def Redis.liveGet (r : Redis) (now : Nat) (k : String) : Option REntry :=
  match r.find k with
  | none => none
  | some e =>
    match e.expireAt with
    | none => some e
    | some t => if now < t then some e else none

/-- Redis `SET`: stores a plain value and discards any previous TTL. -/
def Redis.redisSet (r : Redis) (k : String) (v : JVal) : Redis :=
  r.setEntry k ⟨RVal.rstr v, none⟩

/-- Redis `GET` (with `decode_responses`): the stored plain value, or
`none` when the key is absent or expired.  (A non-string key would raise
`WRONGTYPE`; no modelled flow reads one.) -/
def Redis.redisGet (r : Redis) (now : Nat) (k : String) : Option JVal :=
  match r.liveGet now k with
  | some ⟨RVal.rstr v, _⟩ => some v
  | _ => none

/-- Redis `EXPIRE k ttl`: sets the key's expiry to `now + ttl`; a no-op on
an absent or expired key. -/
def Redis.expire (r : Redis) (now : Nat) (k : String) (ttl : Nat) : Redis :=
  match r.liveGet now k with
  | none => r
  | some e => r.setEntry k ⟨e.val, some (now + ttl)⟩

/-- Replace-or-append in an association list (Redis hash-field set /
JSON object-field set). -/
def setAssoc {α : Type} (h : List (String × α)) (f : String) (v : α) :
    List (String × α) :=
  match h with
  | [] => [(f, v)]
  | (f0, v0) :: rest =>
    if f0 = f then (f0, v) :: rest else (f0, v0) :: setAssoc rest f v

/-- Redis `HSET`: creates the hash if needed; keeps the key's TTL. -/
def Redis.hset (r : Redis) (now : Nat) (k f v : String) : Redis :=
  match r.liveGet now k with
  | some ⟨RVal.rhash h, exp⟩ => r.setEntry k ⟨RVal.rhash (setAssoc h f v), exp⟩
  | _ => r.setEntry k ⟨RVal.rhash [(f, v)], none⟩

/-- Redis `HGETALL`: the hash's fields, `[]` when absent or expired. -/
def Redis.hgetall (r : Redis) (now : Nat) (k : String) : List (String × String) :=
  match r.liveGet now k with
  | some ⟨RVal.rhash h, _⟩ => h
  | _ => []

/-- `JSON.SET key $ doc`: replaces the whole document.  Like `SET`, the
modelled root-set does not carry a TTL over (both call sites in
`tools/memory.py` call `expire` immediately afterwards, so this choice is
unobservable). -/
def Redis.jsonSetRoot (r : Redis) (k : String) (doc : JVal) : Redis :=
  r.setEntry k ⟨RVal.rjson doc, none⟩

/-- `client.json().get(key)`: the stored document, or `none` when the key
is absent or expired. -/
def Redis.jsonGet (r : Redis) (now : Nat) (k : String) : Option JVal :=
  match r.liveGet now k with
  | some ⟨RVal.rjson d, _⟩ => some d
  | _ => none

/-- Errors raised by the blackboard-store operations (`ValueError`s raised
by the repository code, and errors returned by the Redis server). -/
inductive MemErr where
  | planNotFound    -- `JSON.SET` with a non-root path on a missing key
  | pathError       -- the path does not resolve inside the document
  | malformedPlan   -- ValueError "Plan must be a JSON-serializable object"
  | malformedResult -- ValueError "Result must be a JSON-serializable object"
deriving DecidableEq

/-- `client.json().set(key, ".steps.[idx].status", status)`: sets the
`status` field of the `idx`-th element of the document's `steps` array,
keeping the key's TTL.  Fails when the key is absent/expired, when the
document has no `steps` array, or when `idx` is out of range.  (A negative
index would address from the end of the array in the real store; the
claims only exercise 1-based step ids, i.e. indices `≥ 0`.) -/
def Redis.jsonSetStepStatus (r : Redis) (now : Nat) (k : String) (idx : Int)
    (status : String) : Except MemErr Redis :=
  match r.liveGet now k with
  | none => Except.error MemErr.planNotFound
  | some e =>
    match e.val with
    | RVal.rjson (JVal.jobj fields) =>
      match fields.lookup "steps" with
      | some (JVal.jarr steps) =>
        if h : 0 ≤ idx ∧ idx.toNat < steps.length then
          match steps.get ⟨idx.toNat, h.2⟩ with
          | JVal.jobj sf =>
            let step := JVal.jobj (setAssoc sf "status" (JVal.jstr status))
            Except.ok (r.setEntry k
              ⟨RVal.rjson (JVal.jobj (setAssoc fields "steps"
                  (JVal.jarr (steps.set idx.toNat step)))), e.expireAt⟩)
          | _ => Except.error MemErr.pathError
        else Except.error MemErr.pathError
      | _ => Except.error MemErr.pathError
    | _ => Except.error MemErr.pathError

/-! ## Blackboard store operations (`src/tools/memory.py`)

A Python argument typed `dict[str, Any] | str` is modelled by `PyObj`:
`pdict` for a structured (already-parsed) object, `pstr` for a string,
`pother` for any other runtime type (rejected by the `isinstance` checks).
`json.loads` is an external collaborator and is passed in as a partial
function `jsonLoads` (`none` models `json.JSONDecodeError`). -/

inductive PyObj where
  | pdict (v : JVal)
  | pstr (s : String)
  | pother

/-- `write_plan` (`tools/memory.py:31`): accepts a dict or a JSON string,
stores the document under the key `plan_id` via `JSON.SET`, then
`EXPIRE plan_id 3600`, and returns `"ok"`. -/
def write_plan (jsonLoads : String → Option JVal) (r : Redis) (now : Nat)
    (plan_id : String) (plan : PyObj) : Except MemErr (Redis × String) :=
  match plan with
  | PyObj.pother => Except.error MemErr.malformedPlan
  | PyObj.pstr s =>
    match jsonLoads s with
    | none => Except.error MemErr.malformedPlan
    | some v =>
      let r1 := (r.jsonSetRoot plan_id v).expire now plan_id 3600
      Except.ok (r1, "ok")
  | PyObj.pdict v =>
    let r1 := (r.jsonSetRoot plan_id v).expire now plan_id 3600
    Except.ok (r1, "ok")

/-- `update_plan_status` (`tools/memory.py:60`): issues
`JSON.SET plan_id ".steps.[step_id - 1].status" status`; no `expire`. -/
def update_plan_status (r : Redis) (now : Nat) (plan_id : String)
    (step_id : Int) (status : String := "completed") :
    Except MemErr (Redis × String) :=
  (r.jsonSetStepStatus now plan_id (step_id - 1) status).map (fun r1 => (r1, "ok"))

/-- `write_context_description` (`tools/memory.py:78`): records the
description in the plan's blackboard hash and refreshes the hash's TTL. -/
def write_context_description (r : Redis) (now : Nat)
    (plan_id file_path_or_url description : String) : Redis × String :=
  let bKey := strLower ("blackboard|" ++ plan_id)
  let vKey := "context|" ++ plan_id ++ "|" ++ file_path_or_url
  let r1 := (r.hset now bKey vKey description).expire now bKey 3600
  (r1, "ok")

/-- `write_result` (`tools/memory.py:101`): a dict result is stored as its
`json.dumps` string; a string result is stored as its `json.loads` value
(this asymmetry is the source's, pinned by `tests/test_memory.py`).  The
description goes into the blackboard hash under the lower-cased result
key; both keys get a 3600 TTL. -/
def write_result (jsonLoads : String → Option JVal) (r : Redis) (now : Nat)
    (plan_id agent_name : String) (step_id : Int) (description : String)
    (result : PyObj) : Except MemErr (Redis × String) :=
  let store := fun (data : JVal) =>
    let bKey := strLower ("blackboard|" ++ plan_id)
    let vKey :=
      strLower ("result|" ++ plan_id ++ "|" ++ toString step_id ++ "|" ++ agent_name)
    let r1 := (r.hset now bKey vKey description).expire now bKey 3600
    let r2 := (r1.redisSet vKey data).expire now vKey 3600
    Except.ok (r2, "ok")
  match result with
  | PyObj.pother => Except.error MemErr.malformedResult
  | PyObj.pstr s =>
    match jsonLoads s with
    | none => Except.error MemErr.malformedResult
    | some v => store v
  | PyObj.pdict d => store (JVal.jstr (JVal.dumps d))

/-- `fetch_plan` (`tools/memory.py:145`): `client.json().get(plan_id)` —
the stored document, or `None` when absent/expired. -/
def fetch_plan (r : Redis) (now : Nat) (plan_id : String) : Option JVal :=
  r.jsonGet now plan_id

/-- `fetch_blackboard` (`tools/memory.py:159`):
`json.dumps(client.hgetall("blackboard|<plan_id>".lower()))`. -/
def fetch_blackboard (r : Redis) (now : Nat) (plan_id : String) : String :=
  let bKey := strLower ("blackboard|" ++ plan_id)
  JVal.dumps (JVal.jobj ((r.hgetall now bKey).map (fun p => (p.1, JVal.jstr p.2))))

/-- `fetch_result` (`tools/memory.py:174`):
`json.dumps(client.get("result|<plan>|<step>|<agent>".lower()))` — note
the stored value is re-encoded by `json.dumps`, and an absent key encodes
as `"null"`. -/
def fetch_result (r : Redis) (now : Nat) (plan_id agent_name : String)
    (step_id : Int) : String :=
  let vKey :=
    strLower ("result|" ++ plan_id ++ "|" ++ toString step_id ++ "|" ++ agent_name)
  JVal.dumps ((r.redisGet now vKey).getD JVal.jnull)

/-! ## The `Plan` pydantic model (`src/models.py`) and `save_plan`
(`src/server.py:68`)

Structural validation of a JSON value against the `Plan` / `PlanStep`
shapes.  Pydantic's lax scalar coercions (e.g. numeric strings to ints)
are not modelled; extra fields are ignored and defaults applied, as
pydantic does. -/

structure PlanStep where
  id : Int
  agent : String
  prompt : String
  revision : Int
  status : String
  depends_on : List Int

structure Plan where
  id : Int
  goal : String
  steps : List PlanStep

def agentRoles : List String :=
  ["researcher", "extractor", "analyzer", "writer", "editor", "evaluator"]

def stepStatuses : List String := ["pending", "completed", "failed"]

def validateStep (v : JVal) : Option PlanStep :=
  match v with
  | JVal.jobj fs =>
    match fs.lookup "id", fs.lookup "agent", fs.lookup "prompt",
        fs.lookup "depends_on" with
    | some (JVal.jnum i), some (JVal.jstr a), some (JVal.jstr p),
        some (JVal.jarr ds) =>
      if a ∈ agentRoles then
        let rev : Option Int :=
          match fs.lookup "revision" with
          | some (JVal.jnum n) => some n
          | none => some 0
          | _ => none
        let st : Option String :=
          match fs.lookup "status" with
          | some (JVal.jstr s) => if s ∈ stepStatuses then some s else none
          | none => some "pending"
          | _ => none
        let dep : Option (List Int) :=
          ds.mapM (fun d => match d with | JVal.jnum n => some n | _ => none)
        match rev, st, dep with
        | some rv, some sv, some dv => some ⟨i, a, p, rv, sv, dv⟩
        | _, _, _ => none
      else none
    | _, _, _, _ => none
  | _ => none

def validatePlan (v : JVal) : Option Plan :=
  match v with
  | JVal.jobj fs =>
    match fs.lookup "id", fs.lookup "goal", fs.lookup "steps" with
    | some (JVal.jnum i), some (JVal.jstr g), some (JVal.jarr ss) =>
      (ss.mapM validateStep).map (fun steps => ⟨i, g, steps⟩)
    | _, _, _ => none
  | _ => none

/-- `PlanStep.model_dump(mode="json")`. -/
def PlanStep.toJson (s : PlanStep) : JVal :=
  JVal.jobj [("id", JVal.jnum s.id), ("agent", JVal.jstr s.agent),
    ("prompt", JVal.jstr s.prompt), ("revision", JVal.jnum s.revision),
    ("status", JVal.jstr s.status),
    ("depends_on", JVal.jarr (s.depends_on.map JVal.jnum))]

/-- `Plan.model_dump(mode="json")`. -/
def Plan.toJson (p : Plan) : JVal :=
  JVal.jobj [("id", JVal.jnum p.id), ("goal", JVal.jstr p.goal),
    ("steps", JVal.jarr (p.steps.map PlanStep.toJson))]

/-- `save_plan` (`server.py:68`): validates the argument against the
`Plan` model (`model_validate_json` for strings = parse then validate),
raising `ValueError` ("MalformedPlan") on failure, then calls
`write_plan(plan_id, parsed.model_dump(mode="json"))`. -/
def save_plan (jsonLoads : String → Option JVal) (r : Redis) (now : Nat)
    (plan_id : String) (plan : PyObj) : Except MemErr (Redis × String) :=
  match plan with
  | PyObj.pstr s =>
    match (jsonLoads s).bind validatePlan with
    | none => Except.error MemErr.malformedPlan
    | some p => write_plan jsonLoads r now plan_id (PyObj.pdict p.toJson)
  | PyObj.pdict v =>
    match validatePlan v with
    | none => Except.error MemErr.malformedPlan
    | some p => write_plan jsonLoads r now plan_id (PyObj.pdict p.toJson)
  | PyObj.pother => Except.error MemErr.malformedPlan

/-! ## KeySchema: `validate_key` (`src/common.py:180`)

`uuid.UUID(hex)` is modelled from CPython 3.11 `uuid.py`:
`hex.replace('urn:', '').replace('uuid:', '').strip('{}').replace('-', '')`
must have length 32 and be accepted by `int(_, 16)`. -/

def isHexChar (c : Char) : Bool :=
  c.isDigit || ('a' ≤ c && c ≤ 'f') || ('A' ≤ c && c ≤ 'F')

/-- Tail of a hex-digit run: digits with single underscores between
digits (Python's numeric-literal underscore rule). -/
def hexTail : List Char → Bool
  | [] => true
  | '_' :: rest =>
    match rest with
    | c :: rest1 => isHexChar c && hexTail rest1
    | [] => false
  | c :: rest => isHexChar c && hexTail rest

def hexBody (cs : List Char) : Bool :=
  match cs with
  | [] => false
  | c :: rest => isHexChar c && hexTail rest

/-- Whether Python's `int(s, 16)` succeeds: optional surrounding
whitespace, optional sign, optional `0x`/`0X` prefix (an underscore may
follow the prefix), then hex digits with single underscores between
digits. -/
def pyIntBase16Valid (s : String) : Bool :=
  let cs := (((s.toList.dropWhile Char.isWhitespace).reverse).dropWhile
    Char.isWhitespace).reverse
  let cs1 := match cs with
    | '+' :: r => r
    | '-' :: r => r
    | r => r
  match cs1 with
  | '0' :: 'x' :: r => (match r with | '_' :: r1 => hexBody r1 | _ => hexBody r)
  | '0' :: 'X' :: r => (match r with | '_' :: r1 => hexBody r1 | _ => hexBody r)
  | r => hexBody r

/-- Python `str.strip('{}')`: removes any run of `{` / `}` characters from
both ends. -/
def stripBraces (s : String) : String :=
  let isBrace := fun (c : Char) => c = '\x7b' || c = '\x7d'
  String.mk (((s.toList.dropWhile isBrace).reverse.dropWhile isBrace).reverse)

/-- CPython `uuid.UUID(hex)` accepts the string (no exception). -/
def pyUuidValid (s : String) : Bool :=
  let t := stripBraces (pyReplace (pyReplace s "urn:" "") "uuid:" "")
  let t1 := pyReplace t "-" ""
  t1.length == 32 && pyIntBase16Valid t1

inductive KeyErr where
  | invalidKeyFormat  -- wrong kind, or part count does not match the arity
  | invalidPlanId     -- part 1 is not a valid UUID
deriving DecidableEq

/-- `validate_key` (`common.py:180`): splits on `|`, checks the kind and
its arity, checks `uuid.UUID(parts[1])`, and returns
`(parts[0], parts[1], parts[2] if present, parts[3] if present)`. -/
def validate_key (key : String) :
    Except KeyErr (String × String × Option String × Option String) :=
  let parts := pySplit key "|"
  let p0 := parts.headD ""  -- `parts[0]`; `str.split` never returns an empty list
  if ¬(p0 = "context" ∨ p0 = "plan" ∨ p0 = "blackboard" ∨ p0 = "result") then
    Except.error KeyErr.invalidKeyFormat
  else if (p0 = "plan" ∨ p0 = "blackboard") ∧ parts.length ≠ 2 then
    Except.error KeyErr.invalidKeyFormat
  else if p0 = "context" ∧ parts.length ≠ 3 then
    Except.error KeyErr.invalidKeyFormat
  else if p0 = "result" ∧ parts.length ≠ 4 then
    Except.error KeyErr.invalidKeyFormat
  else
    -- after the arity checks every surviving key has ≥ 2 parts
    let p1 := (parts.get? 1).getD ""
    if pyUuidValid p1 then
      Except.ok (p0, p1, parts.get? 2, parts.get? 3)
    else
      Except.error KeyErr.invalidPlanId

/-! ## BlobCache and FetchPipeline (`src/tools/context.py`)

Python exceptions are split into the two classes the pipeline
distinguishes: `OSError` (retried by tenacity) and `ValueError` (not
retried). -/

inductive PyErr where
  | oserr (msg : String)
  | valerr (msg : String)
deriving DecidableEq

structure AppConfig where
  cache_path : String

/-- The conftest configuration: `cache_path="file:///tmp/test_cache"`. -/
def testConfig : AppConfig := ⟨"file:///tmp/test_cache"⟩

/-- `url.split("://")` when it yields exactly two parts (the
`protocol, _ = url.split("://")` unpacking pattern). -/
def splitScheme (url : String) : Option (String × String) :=
  match pySplit url "://" with
  | [a, b] => some (a, b)
  | _ => none

/-- `get_storage_opts` (`common.py:91`): per-protocol options; raises
`ValueError` for an unsupported protocol.  The option dictionaries
themselves are opaque collaborator configuration and carry no behaviour
in this model. -/
def get_storage_opts (protocol : String) : Except PyErr Unit :=
  if protocol = "s3" ∨ protocol = "abfs" ∨ protocol = "gcs" ∨
      protocol = "sftp" ∨ protocol = "smb" ∨ protocol = "file" ∨
      protocol = "https" then
    Except.ok ()
  else
    Except.error (PyErr.valerr ("Unsupported protocol: " ++ protocol))

/-- `get_filesystem` (`tools/context.py:18`): unpacks the scheme
(`ValueError` when `split("://")` does not yield exactly two parts), then
resolves the storage options.  The returned "filesystem" is identified by
its protocol. -/
def get_filesystem (url : String) : Except PyErr String :=
  match splitScheme url with
  | none => Except.error (PyErr.valerr "not enough values to unpack")
  | some (protocol, _) => (get_storage_opts protocol).map (fun _ => protocol)

/-- The three converter configurations `get_converter_opts`
(`common.py:62`) can select. -/
inductive ConvOpts where
  | imageOpts   -- llm-backed conversion for image extensions
  | pdfOpts     -- document-intelligence conversion for pdf extensions
  | defaultOpts -- plugins-enabled default
deriving DecidableEq

/-- `get_converter_opts` (`common.py:62`): extension-based selection on
the lower-cased url. -/
def get_converter_opts (url : String) : ConvOpts :=
  let l := strLower url
  if [".png", ".jpg", ".jpeg", ".gif", ".bmp", ".tiff"].any (strEndsWith l) then
    ConvOpts.imageOpts
  else if [".pdf", ".x-pdf"].any (strEndsWith l) then ConvOpts.pdfOpts
  else ConvOpts.defaultOpts

/-- What reading a cache file can observe. -/
inductive CVal where
  | text (s : String)  -- the file reads back as a `str`
  | nontext            -- the file reads back as a truthy non-`str` value

inductive CacheEntry where
  | file (c : CVal)  -- a regular file
  | notAFile         -- the path exists but `fs.isfile` is false
  | unopenable       -- a file whose `fs.open` raises `OSError`

structure CacheFS where
  entries : List (String × CacheEntry)

/-- `get_cache_key` is `hashlib.md5(url).hexdigest()`; the digest
primitive is an external collaborator passed in as `digest`. -/
structure FetchEnv where
  digest : String → String
  backendReads : Nat → Except String String  -- outcome of the n-th source read
  convert : ConvOpts → String → String       -- markitdown: bytes to markdown text
  writeFails : Bool                          -- cache writes raise `OSError`

/-- `load_cache_file` (`tools/context.py:98`): missing file, non-file and
failing `open` raise `OSError`; an empty or non-`str` content raises
`ValueError`. -/
def load_cache_file (digest : String → String) (cfg : AppConfig)
    (fs : CacheFS) (url : String) : Except PyErr String :=
  let hash_key := digest url
  match splitScheme cfg.cache_path with
  | none => Except.error (PyErr.valerr "not enough values to unpack")
  | some (_, cache_path) =>
    match get_filesystem cfg.cache_path with
    | Except.error e => Except.error e
    | Except.ok _ =>
      let cache_file := cache_path ++ "/" ++ hash_key ++ ".md"
      match fs.entries.lookup cache_file with
      | none =>
        Except.error (PyErr.oserr ("Cache file " ++ cache_file ++ " does not exist"))
      | some CacheEntry.notAFile =>
        Except.error (PyErr.oserr ("Cache file " ++ cache_file ++ " is not a file"))
      | some CacheEntry.unopenable =>
        Except.error (PyErr.oserr ("Cache file " ++ cache_file ++ " cannot be opened"))
      | some (CacheEntry.file (CVal.text content)) =>
        if content = "" then
          Except.error (PyErr.valerr ("Cache file " ++ cache_file ++ " is empty"))
        else Except.ok content
      | some (CacheEntry.file CVal.nontext) =>
        -- a truthy non-`str` content passes `if not content` and fails
        -- `isinstance(content, str)`
        Except.error (PyErr.valerr ("Cache file " ++ cache_file ++ " is not a string"))

/-- `write_cache_file` (`tools/context.py:77`): creates the cache
directory idempotently and persists the text under `<digest>.md`.  A
filesystem failure (`writeFails`) raises `OSError`. -/
def write_cache_file (digest : String → String) (cfg : AppConfig)
    (fs : CacheFS) (writeFails : Bool) (url contents : String) :
    Except PyErr CacheFS :=
  let hash_key := digest url
  match splitScheme cfg.cache_path with
  | none => Except.error (PyErr.valerr "not enough values to unpack")
  | some (_, cache_path) =>
    match get_filesystem cfg.cache_path with
    | Except.error e => Except.error e
    | Except.ok _ =>
      if writeFails then Except.error (PyErr.oserr "cache write failed")
      else
        Except.ok ⟨setAssoc fs.entries (cache_path ++ "/" ++ hash_key ++ ".md")
          (CacheEntry.file (CVal.text contents))⟩

structure FetchSt where
  cache : CacheFS
  backendCalls : Nat  -- number of source reads performed so far

/-- One execution of the `fetch_context` body (`tools/context.py:135`,
without the tenacity wrapper):

1. on `use_cache`, try the cache; a hit returns at once, an `OSError` is
   swallowed (`except OSError: pass`), a `ValueError` propagates;
2. open the source and read it — *any* exception here, including the
   `ValueError` of an unsupported scheme, is re-raised as `OSError`
   (`except Exception ... raise OSError(...) from None`);
3. convert, then (on `use_cache`) write the cache — *before* the
   empty-markdown check, and with no exception handler;
4. raise `ValueError` when the converted markdown is empty.  (The
   `isinstance(document.markdown, str)` guard is identically true here:
   the modelled converter returns text.) -/
def fetch_once (env : FetchEnv) (cfg : AppConfig) (url : String)
    (use_cache : Bool) (st : FetchSt) : Except PyErr String × FetchSt :=
  let copts := get_converter_opts url
  let cacheRead : Option (Except PyErr String) :=
    if use_cache then
      match load_cache_file env.digest cfg st.cache url with
      | Except.ok content => some (Except.ok content)
      | Except.error (PyErr.oserr _) => none  -- `except OSError: pass`
      | Except.error (PyErr.valerr m) => some (Except.error (PyErr.valerr m))
    else none
  match cacheRead with
  | some r => (r, st)
  | none =>
    match get_filesystem url with
    | Except.error _ =>
      -- wrapped by the blanket `except Exception` into an `OSError`
      (Except.error (PyErr.oserr ("Failed to load file from " ++ url)), st)
    | Except.ok _ =>
      let n := st.backendCalls
      let st1 : FetchSt := ⟨st.cache, n + 1⟩
      match env.backendReads n with
      | Except.error _ =>
        (Except.error (PyErr.oserr ("Failed to load file from " ++ url)), st1)
      | Except.ok bytes =>
        let md := env.convert copts bytes
        let afterWrite : Except PyErr FetchSt :=
          if use_cache then
            (write_cache_file env.digest cfg st1.cache env.writeFails url md).map
              (fun c => ⟨c, st1.backendCalls⟩)
          else Except.ok st1
        match afterWrite with
        | Except.error e => (Except.error e, st1)
        | Except.ok st2 =>
          if md = "" then
            (Except.error (PyErr.valerr
              ("Failed to convert file " ++ url ++ " to Markdown")), st2)
          else (Except.ok md, st2)

/-- Which exceptions tenacity retries:
`retry_if_exception_type(OSError)`. -/
def retryable : PyErr → Bool
  | PyErr.oserr _ => true
  | PyErr.valerr _ => false

/-- tenacity `wait_exponential(multiplier=0.5)`, the decorator's wait
strategy (`tools/context.py:131`).  tenacity's `wait.py`
(`wait_exponential.__call__`, identical across the 8.x/9.x releases the
repository can resolve — e.g. 8.2.2 and 8.2.3) computes

    exp = self.exp_base ** (retry_state.attempt_number - 1)
    result = self.multiplier * exp

with `exp_base = 2` and 1-based attempt numbers, so the wait after the
n-th failed attempt is `0.5 * 2 ^ (n - 1)` time-units: 0.5, 1.0, 2.0, ….
(The un-shifted exponent `2 ** attempt_number`, which would give 1.0,
2.0, …, is the formula of the legacy `retrying` library that preceded
tenacity, not of tenacity's `wait_exponential`; tenacity's
`wait_exponential_jitter` is a different strategy, unused here, whose
exponent is the 0-based retry count — numerically the same shift.) -/
def backoffWait (attempt : Nat) : ℚ := (1 / 2) * 2 ^ (attempt - 1)

/-- The tenacity loop: run the body; on a retryable error with attempts
remaining, record the backoff wait and run again (`reraise=True` re-raises
the last exception once attempts are exhausted). -/
def tenacityGo (env : FetchEnv) (cfg : AppConfig) (url : String)
    (use_cache : Bool) :
    Nat → Nat → FetchSt → List ℚ → Except PyErr String × FetchSt × List ℚ
  | _, 0, st, waits => (Except.error (PyErr.oserr "no attempts"), st, waits)
  | attemptNum, fuel + 1, st, waits =>
    match fetch_once env cfg url use_cache st with
    | (Except.ok v, st1) => (Except.ok v, st1, waits)
    | (Except.error e, st1) =>
      if retryable e ∧ fuel ≠ 0 then
        tenacityGo env cfg url use_cache (attemptNum + 1) fuel st1
          (waits ++ [backoffWait attemptNum])
      else (Except.error e, st1, waits)

/-- `fetch_context` (`tools/context.py:129`), with its decorator
`@retry(stop=stop_after_attempt(3), wait=wait_exponential(multiplier=0.5),
retry=retry_if_exception_type(OSError), reraise=True)`.  Also returns the
final state and the list of backoff waits performed. -/
def fetch_context (env : FetchEnv) (cfg : AppConfig) (url : String)
    (use_cache : Bool := true) (st : FetchSt) :
    Except PyErr String × FetchSt × List ℚ :=
  tenacityGo env cfg url use_cache 1 3 st []

/-! ## StaleEvictor (`src/server.py:23` with `tools/context.py:35`) -/

inductive CTimeVal where
  | cnum (t : Int)    -- a numeric (int/float) timestamp
  | cstr (s : String) -- a string timestamp, handed to `float(...)`
deriving DecidableEq

structure FileInfo where
  name : String
  ctime : Option CTimeVal
  creation_time : Option Int  -- a `datetime`, as the instant it denotes
deriving DecidableEq

/-- Python truthiness of the walrus test `if ctime := info.get("ctime")`:
`0`, `0.0` and `""` are falsy. -/
def ctimeTruthy : CTimeVal → Bool
  | CTimeVal.cnum t => t ≠ 0
  | CTimeVal.cstr s => s ≠ ""

/-- `get_file_age` (`tools/context.py:35`).  `parseFloat` models
`float(...)` on a string (`none` = `ValueError`, making the age default
to 0).  A file with neither a truthy `ctime` nor a `creation_time` makes
`current_time - None` raise `TypeError`, modelled as `none`.  (Attaching
`tzinfo=UTC` to a naive `creation_time` does not change the instant it
denotes, so both branches subtract the timestamp.) -/
def get_file_age (parseFloat : String → Option Int) (now : Int)
    (fi : FileInfo) : Option Int :=
  let fallback : Option Int :=
    match fi.creation_time with
    | some t => some (now - t)
    | none => none
  match fi.ctime with
  | some ct =>
    if ctimeTruthy ct then
      match ct with
      | CTimeVal.cnum t => some (now - t)
      | CTimeVal.cstr s =>
        match parseFloat s with
        | none => some 0  -- unparsable string: "return 0"
        | some t => some (now - t)
    else fallback
  | none => fallback

/-- `remove_stale_files` (`server.py:23`): lists the cache directory and
removes every entry whose computed age exceeds `max_age`.  A `TypeError`
while computing an age aborts the sweep (`none`); the claims quantify
over sweeps that complete. -/
def remove_stale_files (parseFloat : String → Option Int) (now : Int)
    (files : List FileInfo) (max_age : Int := 3600) : Option (List FileInfo) :=
  if files.all (fun fi => (get_file_age parseFloat now fi).isSome) then
    some (files.filter (fun fi =>
      decide ((get_file_age parseFloat now fi).getD 0 ≤ max_age)))
  else none

/-! ## Theorems -/

/-! Association-list and store helper lemmas, shared across the claims. -/

theorem lookup_filter_ne {α : Type} (l : List (String × α)) (k k' : String)
    (h : k' ≠ k) :
    (l.filter (fun p => !(p.1 == k))).lookup k' = l.lookup k' := by
  induction l with
  | nil => rfl
  | cons p rest ih =>
    rcases p with ⟨pk, pv⟩
    by_cases hpk : pk = k
    · subst hpk
      have hk : (k' == pk) = false := beq_eq_false_iff_ne.mpr h
      simp [List.filter_cons, List.lookup, hk]
      exact ih
    · have : (pk == k) = false := beq_eq_false_iff_ne.mpr hpk
      simp [List.filter_cons, this, List.lookup]
      by_cases hk : k' = pk
      · simp [hk]
      · simp [beq_eq_false_iff_ne.mpr hk, ih]

theorem find_setEntry_self (r : Redis) (k : String) (e : REntry) :
    (r.setEntry k e).find k = some e := by
  simp [Redis.setEntry, Redis.find, List.lookup]

theorem find_setEntry_ne (r : Redis) (k k' : String) (e : REntry) (h : k' ≠ k) :
    (r.setEntry k e).find k' = r.find k' := by
  have hk : (k' == k) = false := beq_eq_false_iff_ne.mpr h
  simp [Redis.setEntry, Redis.find, List.lookup, hk]
  exact lookup_filter_ne r.entries k k' h

/-- Frame: `setEntry` leaves every other key's live view unchanged. -/
theorem liveGet_setEntry_ne (r : Redis) (now : Nat) (k k' : String) (e : REntry)
    (h : k' ≠ k) :
    (r.setEntry k e).liveGet now k' = r.liveGet now k' := by
  simp [Redis.liveGet, find_setEntry_ne r k k' e h]

/-- C9: `parse` fails with `InvalidKeyFormat` exactly when part 0 is not
one of the four recognized kinds or the pipe-separated part count does not
match the kind's arity (2 for plan/blackboard, 3 for context, 4 for
result); it fails with `InvalidPlanId` exactly when the kind and arity are
fine but part 1 is not a valid UUID; otherwise it succeeds and returns all
parts, with absent optional parts as `none` rather than empty strings. -/
theorem C9_validate_key_classification (key : String) :
    (validate_key key = Except.error KeyErr.invalidKeyFormat ↔
      (¬((pySplit key "|").headD "" = "context" ∨ (pySplit key "|").headD "" = "plan" ∨
          (pySplit key "|").headD "" = "blackboard" ∨ (pySplit key "|").headD "" = "result") ∨
        ((((pySplit key "|").headD "" = "plan" ∨ (pySplit key "|").headD "" = "blackboard") ∧
            (pySplit key "|").length ≠ 2) ∨
          ((pySplit key "|").headD "" = "context" ∧ (pySplit key "|").length ≠ 3) ∨
          ((pySplit key "|").headD "" = "result" ∧ (pySplit key "|").length ≠ 4)))) ∧
    (validate_key key = Except.error KeyErr.invalidPlanId ↔
      (((pySplit key "|").headD "" = "context" ∨ (pySplit key "|").headD "" = "plan" ∨
          (pySplit key "|").headD "" = "blackboard" ∨ (pySplit key "|").headD "" = "result") ∧
        ¬((((pySplit key "|").headD "" = "plan" ∨ (pySplit key "|").headD "" = "blackboard") ∧
            (pySplit key "|").length ≠ 2) ∨
          ((pySplit key "|").headD "" = "context" ∧ (pySplit key "|").length ≠ 3) ∨
          ((pySplit key "|").headD "" = "result" ∧ (pySplit key "|").length ≠ 4)) ∧
        ¬(pyUuidValid (((pySplit key "|").get? 1).getD "") = true))) ∧
    ((((pySplit key "|").headD "" = "context" ∨ (pySplit key "|").headD "" = "plan" ∨
          (pySplit key "|").headD "" = "blackboard" ∨ (pySplit key "|").headD "" = "result") ∧
        ¬((((pySplit key "|").headD "" = "plan" ∨ (pySplit key "|").headD "" = "blackboard") ∧
            (pySplit key "|").length ≠ 2) ∨
          ((pySplit key "|").headD "" = "context" ∧ (pySplit key "|").length ≠ 3) ∨
          ((pySplit key "|").headD "" = "result" ∧ (pySplit key "|").length ≠ 4)) ∧
        pyUuidValid (((pySplit key "|").get? 1).getD "") = true) →
      validate_key key = Except.ok ((pySplit key "|").headD "",
        ((pySplit key "|").get? 1).getD "", (pySplit key "|").get? 2,
        (pySplit key "|").get? 3)) := by
  simp only [validate_key]
  split_ifs with h1 h2 h3 h4 h5 <;>
    refine ⟨?_, ?_, ?_⟩ <;> simp_all

/-- C9 witness: a well-formed plan key parses to all four components with
the optional parts absent, and Scenario C's key
`"result|not-a-uuid|1|agentX"` fails with `InvalidPlanId`. -/
theorem C9_validate_key_witness :
    validate_key "plan|11111111-1111-1111-1111-111111111111" =
      Except.ok ("plan", "11111111-1111-1111-1111-111111111111", none, none) ∧
    validate_key "result|not-a-uuid|1|agentX" = Except.error KeyErr.invalidPlanId := by
  constructor
  · exact (C9_validate_key_classification
      "plan|11111111-1111-1111-1111-111111111111").2.2 (by decide)
  · exact (C9_validate_key_classification
      "result|not-a-uuid|1|agentX").2.1.mpr (by decide)

/-- C2 (amended: the document is persisted under the bare plan id — the
key is `<planId>`, not `plan|<planId>`): `save_plan` fails with
`MalformedPlan` whenever the argument (structured or JSON-string) does not
parse/validate against the `Plan` shape; otherwise it persists the full
structured document under the key `plan_id` with expiry reset to
`now + 3600`, returns `"ok"`, and a subsequent `fetch_plan` of the same
plan id returns the same structure (until the TTL elapses, after which it
is absent). -/
theorem C2_save_plan_roundtrip (jsonLoads : String → Option JVal) (r : Redis)
    (now : Nat) (plan_id : String) (plan : PyObj) :
    ((match plan with
      | PyObj.pdict v => validatePlan v
      | PyObj.pstr s => (jsonLoads s).bind validatePlan
      | PyObj.pother => none) = none →
      save_plan jsonLoads r now plan_id plan = Except.error MemErr.malformedPlan) ∧
    (∀ p, (match plan with
      | PyObj.pdict v => validatePlan v
      | PyObj.pstr s => (jsonLoads s).bind validatePlan
      | PyObj.pother => none) = some p →
      save_plan jsonLoads r now plan_id plan =
        Except.ok ((r.jsonSetRoot plan_id p.toJson).expire now plan_id 3600, "ok") ∧
      ((r.jsonSetRoot plan_id p.toJson).expire now plan_id 3600).find plan_id =
        some ⟨RVal.rjson p.toJson, some (now + 3600)⟩ ∧
      (∀ t, t < now + 3600 →
        fetch_plan ((r.jsonSetRoot plan_id p.toJson).expire now plan_id 3600) t
          plan_id = some p.toJson) ∧
      (∀ t, now + 3600 ≤ t →
        fetch_plan ((r.jsonSetRoot plan_id p.toJson).expire now plan_id 3600) t
          plan_id = none)) := by
  have hfind : ∀ p : Plan,
      ((r.jsonSetRoot plan_id p.toJson).expire now plan_id 3600).find plan_id =
        some ⟨RVal.rjson p.toJson, some (now + 3600)⟩ := by
    intro p
    simp [Redis.jsonSetRoot, Redis.expire, Redis.liveGet, find_setEntry_self]
  have hfetch : ∀ (p : Plan) (t : Nat), t < now + 3600 →
      fetch_plan ((r.jsonSetRoot plan_id p.toJson).expire now plan_id 3600) t
        plan_id = some p.toJson := by
    intro p t ht
    simp [fetch_plan, Redis.jsonGet, Redis.liveGet, hfind p, ht]
  have hfetch2 : ∀ (p : Plan) (t : Nat), now + 3600 ≤ t →
      fetch_plan ((r.jsonSetRoot plan_id p.toJson).expire now plan_id 3600) t
        plan_id = none := by
    intro p t ht
    simp [fetch_plan, Redis.jsonGet, Redis.liveGet, hfind p, Nat.not_lt.mpr ht]
  constructor
  · intro hnone
    cases plan with
    | pdict v =>
      simp only [save_plan]
      simp only at hnone
      simp [hnone]
    | pstr s =>
      simp only [save_plan]
      simp only at hnone
      simp [hnone]
    | pother => rfl
  · intro p hsome
    have hok : save_plan jsonLoads r now plan_id plan =
        Except.ok ((r.jsonSetRoot plan_id p.toJson).expire now plan_id 3600, "ok") := by
      cases plan with
      | pdict v =>
        simp only at hsome
        simp [save_plan, hsome, write_plan]
      | pstr s =>
        simp only at hsome
        simp [save_plan, hsome, write_plan]
      | pother => exact absurd hsome (by simp)
    exact ⟨hok, hfind p, hfetch p, hfetch2 p⟩

/-- C2 witness: Scenario A — writing the plan
`{"id": 1, "goal": "g", "steps": []}` under the scenario's UUID returns
`"ok"` and reads back as the same structure. -/
theorem C2_save_plan_roundtrip_witness :
    save_plan (fun _ => none) Redis.empty 0 "11111111-1111-1111-1111-111111111111"
      (PyObj.pdict (JVal.jobj [("id", JVal.jnum 1), ("goal", JVal.jstr "g"),
        ("steps", JVal.jarr [])])) =
      Except.ok ((Redis.empty.jsonSetRoot "11111111-1111-1111-1111-111111111111"
        (Plan.toJson ⟨1, "g", []⟩)).expire 0 "11111111-1111-1111-1111-111111111111" 3600,
        "ok") ∧
    fetch_plan ((Redis.empty.jsonSetRoot "11111111-1111-1111-1111-111111111111"
        (Plan.toJson ⟨1, "g", []⟩)).expire 0 "11111111-1111-1111-1111-111111111111" 3600)
      10 "11111111-1111-1111-1111-111111111111" = some (Plan.toJson ⟨1, "g", []⟩) := by
  have h := (C2_save_plan_roundtrip (fun _ => none) Redis.empty 0
    "11111111-1111-1111-1111-111111111111"
    (PyObj.pdict (JVal.jobj [("id", JVal.jnum 1), ("goal", JVal.jstr "g"),
      ("steps", JVal.jarr [])]))).2 ⟨1, "g", []⟩ (by rfl)
  exact ⟨h.1, h.2.2.1 10 (by norm_num)⟩

/-- C2 counterexample to the claim as stated: Scenario A's write succeeds
(returns `"ok"`), yet nothing whatsoever is stored under the key
`plan|<planId>` — the document lives under the bare plan id instead. -/
theorem C2_plan_key_counterexample :
    (save_plan (fun _ => none) Redis.empty 0 "11111111-1111-1111-1111-111111111111"
        (PyObj.pdict (JVal.jobj [("id", JVal.jnum 1), ("goal", JVal.jstr "g"),
          ("steps", JVal.jarr [])]))).map
      (fun res => (res.2, res.1.find "plan|11111111-1111-1111-1111-111111111111",
        fetch_plan res.1 0 "11111111-1111-1111-1111-111111111111")) =
    Except.ok ("ok", none,
      some (JVal.jobj [("id", JVal.jnum 1), ("goal", JVal.jstr "g"),
        ("steps", JVal.jarr [])])) := by rfl

theorem lookup_setAssoc_self {α : Type} (h : List (String × α)) (f : String) (v : α) :
    (setAssoc h f v).lookup f = some v := by
  induction h with
  | nil => simp [setAssoc, List.lookup]
  | cons p rest ih =>
    rcases p with ⟨pk, pv⟩
    by_cases hpk : pk = f
    · subst hpk
      simp [setAssoc, List.lookup]
    · have hb : (f == pk) = false := beq_eq_false_iff_ne.mpr (Ne.symm hpk)
      simp [setAssoc, hpk, List.lookup, hb, ih]

theorem lookup_setAssoc_ne {α : Type} (h : List (String × α)) (f f' : String)
    (v : α) (hne : f' ≠ f) :
    (setAssoc h f v).lookup f' = h.lookup f' := by
  induction h with
  | nil => simp [setAssoc, List.lookup, beq_eq_false_iff_ne.mpr hne]
  | cons p rest ih =>
    rcases p with ⟨pk, pv⟩
    by_cases hpk : pk = f
    · subst hpk
      simp [setAssoc, List.lookup, beq_eq_false_iff_ne.mpr hne]
    · simp [setAssoc, hpk, List.lookup]
      by_cases hk : f' = pk
      · simp [hk]
      · simp [beq_eq_false_iff_ne.mpr hk, ih]

/-- Appending on the right keeps the first character. -/
theorem data_head?_append_left (s t : String) (c : Char)
    (h : s.data.head? = some c) : (s ++ t).data.head? = some c := by
  have hd : (s ++ t).data = s.data ++ t.data := rfl
  cases hs : s.data with
  | nil => rw [hs] at h; exact absurd h (by simp)
  | cons a l =>
    rw [hs] at h
    simp only [List.head?] at h
    rw [hd, hs]
    simpa using h

/-- Lower-cased strings with different (already lower-case) first
characters are distinct. -/
theorem strLower_ne_of_head (s t : String) (c d : Char)
    (hs : s.data.head? = some c) (ht : t.data.head? = some d)
    (hcd : c.toLower ≠ d.toLower) : strLower s ≠ strLower t := by
  intro h
  have h2 := congrArg (fun u : String => u.data.head?) h
  dsimp only at h2
  have e1 : (strLower s).data.head? = (s.data.head?).map Char.toLower := by
    show ((s.data.map Char.toLower)).head? = _
    simp
  have e2 : (strLower t).data.head? = (t.data.head?).map Char.toLower := by
    show ((t.data.map Char.toLower)).head? = _
    simp
  rw [e1, e2, hs, ht] at h2
  exact hcd (Option.some.inj h2)

/-- After `HSET k f v`, the key `k` is live with a hash whose field `f`
holds `v` (the previous TTL is kept when the hash existed). -/
theorem hset_spec (r : Redis) (now : Nat) (k f v : String) :
    ∃ h e, (r.hset now k f v).liveGet now k = some ⟨RVal.rhash h, e⟩ ∧
      (r.hset now k f v).find k = some ⟨RVal.rhash h, e⟩ ∧
      h.lookup f = some v := by
  unfold Redis.hset
  cases hl : r.liveGet now k with
  | none =>
    refine ⟨[(f, v)], none, ?_, find_setEntry_self _ _ _, by simp [List.lookup]⟩
    simp [Redis.liveGet, find_setEntry_self]
  | some e0 =>
    rcases e0 with ⟨val, exp⟩
    have hliveexp : exp = none ∨ ∃ tl, exp = some tl ∧ now < tl := by
      unfold Redis.liveGet at hl
      cases hf : r.find k with
      | none => rw [hf] at hl; exact absurd hl (by simp)
      | some e1 =>
        rcases e1 with ⟨v1, x1⟩
        rw [hf] at hl
        cases x1 with
        | none =>
          simp only [Option.some.injEq, REntry.mk.injEq] at hl
          exact Or.inl hl.2.symm
        | some tl =>
          by_cases hnow : now < tl
          · simp only [hnow, if_true, Option.some.injEq, REntry.mk.injEq] at hl
            exact Or.inr ⟨tl, hl.2.symm, hnow⟩
          · simp only [hnow, if_false] at hl
            exact absurd hl (by simp)
    cases val with
    | rhash h0 =>
      refine ⟨setAssoc h0 f v, exp, ?_, find_setEntry_self _ _ _,
        lookup_setAssoc_self _ _ _⟩
      unfold Redis.liveGet
      rw [find_setEntry_self]
      rcases hliveexp with hnone | ⟨tl, htl, hlt⟩
      · rw [hnone]
      · rw [htl]
        simp [hlt]
    | rjson d =>
      refine ⟨[(f, v)], none, ?_, find_setEntry_self _ _ _, by simp [List.lookup]⟩
      simp [Redis.liveGet, find_setEntry_self]
    | rstr v0 =>
      refine ⟨[(f, v)], none, ?_, find_setEntry_self _ _ _, by simp [List.lookup]⟩
      simp [Redis.liveGet, find_setEntry_self]

/-- C3: a successful `write_result` (structured result, or JSON string
that `json.loads` accepts) stores the result value under the lower-cased
key `result|<planId>|<stepId>|<agentName>` with expiry `now + 3600`,
records the description in the plan's blackboard index hash under that
same key while resetting the index's expiry to `now + 3600`; the written
result is readable via `fetch_result` (as its `json.dumps` encoding) at
any time before the TTL elapses and is the absent indication `"null"` at
any time from `now + 3600` on. -/
theorem C3_write_result_spec (jsonLoads : String → Option JVal) (r : Redis)
    (now : Nat) (plan_id agent_name : String) (step_id : Int)
    (description : String) (result : PyObj) (data : JVal)
    (hdata : (match result with
      | PyObj.pdict d => some (JVal.jstr (JVal.dumps d))
      | PyObj.pstr s => jsonLoads s
      | PyObj.pother => none) = some data) :
    ∃ r' hIdx,
      write_result jsonLoads r now plan_id agent_name step_id description result =
        Except.ok (r', "ok") ∧
      r'.find (strLower ("result|" ++ plan_id ++ "|" ++ toString step_id ++ "|" ++
          agent_name)) = some ⟨RVal.rstr data, some (now + 3600)⟩ ∧
      r'.find (strLower ("blackboard|" ++ plan_id)) =
        some ⟨RVal.rhash hIdx, some (now + 3600)⟩ ∧
      hIdx.lookup (strLower ("result|" ++ plan_id ++ "|" ++ toString step_id ++ "|" ++
          agent_name)) = some description ∧
      (∀ t, t < now + 3600 →
        fetch_result r' t plan_id agent_name step_id = JVal.dumps data ∧
        (r'.hgetall t (strLower ("blackboard|" ++ plan_id))).lookup
          (strLower ("result|" ++ plan_id ++ "|" ++ toString step_id ++ "|" ++
            agent_name)) = some description) ∧
      (∀ t, now + 3600 ≤ t →
        fetch_result r' t plan_id agent_name step_id = "null") := by
  have hne : strLower ("result|" ++ plan_id ++ "|" ++ toString step_id ++ "|" ++
      agent_name) ≠ strLower ("blackboard|" ++ plan_id) := by
    refine strLower_ne_of_head _ _ 'r' 'b' ?_ ?_ (by decide)
    · exact data_head?_append_left "result|" _ 'r' rfl
    · exact data_head?_append_left "blackboard|" _ 'b' rfl
  obtain ⟨hIdx, e0, hlive1, hfind1, hlook1⟩ :=
    hset_spec r now (strLower ("blackboard|" ++ plan_id))
      (strLower ("result|" ++ plan_id ++ "|" ++ toString step_id ++ "|" ++
        agent_name)) description
  have hrA : (r.hset now (strLower ("blackboard|" ++ plan_id))
        (strLower ("result|" ++ plan_id ++ "|" ++ toString step_id ++ "|" ++
          agent_name)) description).expire now (strLower ("blackboard|" ++ plan_id))
        3600 =
      (r.hset now (strLower ("blackboard|" ++ plan_id))
        (strLower ("result|" ++ plan_id ++ "|" ++ toString step_id ++ "|" ++
          agent_name)) description).setEntry (strLower ("blackboard|" ++ plan_id))
        ⟨RVal.rhash hIdx, some (now + 3600)⟩ := by
    unfold Redis.expire
    rw [hlive1]
  have hliveB : (((r.hset now (strLower ("blackboard|" ++ plan_id))
        (strLower ("result|" ++ plan_id ++ "|" ++ toString step_id ++ "|" ++
          agent_name)) description).expire now (strLower ("blackboard|" ++ plan_id))
        3600).redisSet (strLower ("result|" ++ plan_id ++ "|" ++ toString step_id ++
          "|" ++ agent_name)) data).liveGet now
        (strLower ("result|" ++ plan_id ++ "|" ++ toString step_id ++ "|" ++
          agent_name)) = some ⟨RVal.rstr data, none⟩ := by
    simp [Redis.redisSet, Redis.liveGet, find_setEntry_self]
  have hr2 : (((r.hset now (strLower ("blackboard|" ++ plan_id))
        (strLower ("result|" ++ plan_id ++ "|" ++ toString step_id ++ "|" ++
          agent_name)) description).expire now (strLower ("blackboard|" ++ plan_id))
        3600).redisSet (strLower ("result|" ++ plan_id ++ "|" ++ toString step_id ++
          "|" ++ agent_name)) data).expire now
        (strLower ("result|" ++ plan_id ++ "|" ++ toString step_id ++ "|" ++
          agent_name)) 3600 =
      (((r.hset now (strLower ("blackboard|" ++ plan_id))
        (strLower ("result|" ++ plan_id ++ "|" ++ toString step_id ++ "|" ++
          agent_name)) description).expire now (strLower ("blackboard|" ++ plan_id))
        3600).redisSet (strLower ("result|" ++ plan_id ++ "|" ++ toString step_id ++
          "|" ++ agent_name)) data).setEntry
        (strLower ("result|" ++ plan_id ++ "|" ++ toString step_id ++ "|" ++
          agent_name)) ⟨RVal.rstr data, some (now + 3600)⟩ := by
    conv_lhs => rw [Redis.expire, hliveB]
  have hfindV : ∀ rr : Redis,
      (rr.setEntry (strLower ("result|" ++ plan_id ++ "|" ++ toString step_id ++
        "|" ++ agent_name)) ⟨RVal.rstr data, some (now + 3600)⟩).find
        (strLower ("result|" ++ plan_id ++ "|" ++ toString step_id ++ "|" ++
          agent_name)) = some ⟨RVal.rstr data, some (now + 3600)⟩ :=
    fun rr => find_setEntry_self rr _ _
  have hfindB : (((r.hset now (strLower ("blackboard|" ++ plan_id))
        (strLower ("result|" ++ plan_id ++ "|" ++ toString step_id ++ "|" ++
          agent_name)) description).expire now (strLower ("blackboard|" ++ plan_id))
        3600).redisSet (strLower ("result|" ++ plan_id ++ "|" ++ toString step_id ++
          "|" ++ agent_name)) data).find (strLower ("blackboard|" ++ plan_id)) =
      some ⟨RVal.rhash hIdx, some (now + 3600)⟩ := by
    rw [Redis.redisSet, find_setEntry_ne _ _ _ _ (Ne.symm hne), hrA,
      find_setEntry_self]
  refine ⟨(((r.hset now (strLower ("blackboard|" ++ plan_id))
      (strLower ("result|" ++ plan_id ++ "|" ++ toString step_id ++ "|" ++
        agent_name)) description).expire now (strLower ("blackboard|" ++ plan_id))
      3600).redisSet (strLower ("result|" ++ plan_id ++ "|" ++ toString step_id ++
        "|" ++ agent_name)) data).expire now
      (strLower ("result|" ++ plan_id ++ "|" ++ toString step_id ++ "|" ++
        agent_name)) 3600, hIdx, ?_, ?_, ?_, hlook1, ?_, ?_⟩
  · -- the call returns "ok" with the final store
    cases result with
    | pdict d =>
      simp only [Option.some.injEq] at hdata
      simp [write_result, hdata]
    | pstr s =>
      simp only at hdata
      simp [write_result, hdata]
    | pother => exact absurd hdata (by simp)
  · rw [hr2]; exact hfindV _
  · rw [hr2, find_setEntry_ne _ _ _ _ (Ne.symm hne)]; exact hfindB
  · intro t ht
    constructor
    · show JVal.dumps _ = JVal.dumps data
      rw [hr2]
      rw [show (_ : Redis).redisGet t _ = some data from ?_]
      · rfl
      · rw [Redis.redisGet, Redis.liveGet, hfindV _]
        simp [ht]
    · rw [hr2, Redis.hgetall, Redis.liveGet,
        find_setEntry_ne _ _ _ _ (Ne.symm hne), hfindB]
      simp [ht, hlook1]
  · intro t ht
    show JVal.dumps _ = "null"
    rw [hr2]
    rw [show (_ : Redis).redisGet t _ = none from ?_]
    · rfl
    · rw [Redis.redisGet, Redis.liveGet, hfindV _]
      simp [Nat.not_lt.mpr ht]

/-- C3 witness: writing the result `{"a": 1}` for plan `"P1"`, agent
`"AgentX"`, step 1 stores it under `"result|p1|1|agentx"` with a
`now + 3600` expiry, indexes the description in the blackboard hash, and
is readable before — and absent from — the TTL boundary. -/
theorem C3_write_result_spec_witness :
    ∃ r' hIdx,
      write_result (fun _ => none) Redis.empty 0 "P1" "AgentX" 1 "desc"
          (PyObj.pdict (JVal.jobj [("a", JVal.jnum 1)])) =
        Except.ok (r', "ok") ∧
      r'.find (strLower ("result|" ++ "P1" ++ "|" ++ toString (1 : Int) ++ "|" ++
          "AgentX")) = some ⟨RVal.rstr (JVal.jstr "\x7b\"a\": 1\x7d"),
          some (0 + 3600)⟩ ∧
      r'.find (strLower ("blackboard|" ++ "P1")) =
        some ⟨RVal.rhash hIdx, some (0 + 3600)⟩ ∧
      hIdx.lookup (strLower ("result|" ++ "P1" ++ "|" ++ toString (1 : Int) ++ "|" ++
          "AgentX")) = some "desc" ∧
      (∀ t, t < 0 + 3600 →
        fetch_result r' t "P1" "AgentX" 1 =
          JVal.dumps (JVal.jstr "\x7b\"a\": 1\x7d") ∧
        (r'.hgetall t (strLower ("blackboard|" ++ "P1"))).lookup
          (strLower ("result|" ++ "P1" ++ "|" ++ toString (1 : Int) ++ "|" ++
            "AgentX")) = some "desc") ∧
      (∀ t, 0 + 3600 ≤ t → fetch_result r' t "P1" "AgentX" 1 = "null") :=
  C3_write_result_spec (fun _ => none) Redis.empty 0 "P1" "AgentX" 1 "desc"
    (PyObj.pdict (JVal.jobj [("a", JVal.jnum 1)]))
    (JVal.jstr "\x7b\"a\": 1\x7d") (by rfl)

/-- C8 (amended: `readResult` returns the `json.dumps` re-encoding of the
stored value rather than the stored value itself, and `readBlackboard`'s
absent indication coincides with the encoding of an empty index): all
three reads are total functions — they never raise for an absent entry —
with `readPlan` returning the stored document or `None`, `readResult`
returning `json.dumps` of the stored value or `"null"`, and
`readBlackboard` returning the JSON encoding of the index hash or
`"\x7b\x7d"`. -/
theorem C8_read_operations (r : Redis) (now : Nat) (plan_id agent_name : String)
    (step_id : Int) :
    (∀ d e, r.liveGet now plan_id = some ⟨RVal.rjson d, e⟩ →
      fetch_plan r now plan_id = some d) ∧
    (r.liveGet now plan_id = none → fetch_plan r now plan_id = none) ∧
    (∀ v e, r.liveGet now (strLower ("result|" ++ plan_id ++ "|" ++
        toString step_id ++ "|" ++ agent_name)) = some ⟨RVal.rstr v, e⟩ →
      fetch_result r now plan_id agent_name step_id = JVal.dumps v) ∧
    (r.liveGet now (strLower ("result|" ++ plan_id ++ "|" ++ toString step_id ++
        "|" ++ agent_name)) = none →
      fetch_result r now plan_id agent_name step_id = "null") ∧
    (∀ h e, r.liveGet now (strLower ("blackboard|" ++ plan_id)) =
        some ⟨RVal.rhash h, e⟩ →
      fetch_blackboard r now plan_id =
        JVal.dumps (JVal.jobj (h.map (fun p => (p.1, JVal.jstr p.2))))) ∧
    (r.liveGet now (strLower ("blackboard|" ++ plan_id)) = none →
      fetch_blackboard r now plan_id = "\x7b\x7d") := by
  refine ⟨?_, ?_, ?_, ?_, ?_, ?_⟩
  · intro d e h
    simp [fetch_plan, Redis.jsonGet, h]
  · intro h
    simp [fetch_plan, Redis.jsonGet, h]
  · intro v e h
    show JVal.dumps _ = JVal.dumps v
    rw [Redis.redisGet, h]
    rfl
  · intro h
    show JVal.dumps _ = "null"
    rw [Redis.redisGet, h]
    rfl
  · intro hh e h
    show JVal.dumps _ = _
    rw [Redis.hgetall, h]
  · intro h
    show JVal.dumps _ = "\x7b\x7d"
    rw [Redis.hgetall, h]
    rfl

/-- C8 witness: on an empty store every read yields its explicit absent
indication (`None`, `"null"`, `"\x7b\x7d"`) without raising. -/
theorem C8_read_operations_witness :
    fetch_plan Redis.empty 0 "P1" = none ∧
    fetch_result Redis.empty 0 "P1" "AgentX" 1 = "null" ∧
    fetch_blackboard Redis.empty 0 "P1" = "\x7b\x7d" := by
  have h := C8_read_operations Redis.empty 0 "P1" "AgentX" 1
  exact ⟨h.2.1 (by rfl), h.2.2.2.1 (by rfl), h.2.2.2.2.2 (by rfl)⟩

/-- C8 counterexample to the claim as stated: after storing the result
`{"a": 1}`, the value stored under `"result|p1|1|agentx"` is the string
`\x7b"a": 1\x7d`, but `readResult` returns its `json.dumps` re-encoding
`"\x7b\\"a\\": 1\x7d"` — not the stored value. -/
theorem C8_read_operations_counterexample :
    (write_result (fun _ => none) Redis.empty 0 "P1" "AgentX" 1 "desc"
        (PyObj.pdict (JVal.jobj [("a", JVal.jnum 1)]))).map
      (fun res => (res.1.redisGet 0 "result|p1|1|agentx",
        fetch_result res.1 0 "P1" "AgentX" 1)) =
      Except.ok (some (JVal.jstr "\x7b\"a\": 1\x7d"),
        "\"\x7b\\\"a\\\": 1\x7d\"") ∧
    ("\"\x7b\\\"a\\\": 1\x7d\"" : String) ≠ "\x7b\"a\": 1\x7d" := by
  exact ⟨by rfl, by decide⟩

/-- C6: with a 1-based step id, `update_plan_status` fails with
`PlanNotFound` when the plan key does not exist; on a stored plan it
rewrites only the `status` field of the step at 0-indexed position
`step_id - 1`, leaves every other field of that step, every other step,
every other field of the plan and every other stored key unchanged, and
does not refresh the plan key's TTL. -/
theorem C6_update_step_status (r : Redis) (now : Nat) (plan_id : String)
    (step_id : Int) (status : String) (hstep : 1 ≤ step_id) :
    (r.liveGet now plan_id = none →
      update_plan_status r now plan_id step_id status =
        Except.error MemErr.planNotFound) ∧
    (∀ fields steps sf exp,
      r.liveGet now plan_id = some ⟨RVal.rjson (JVal.jobj fields), exp⟩ →
      fields.lookup "steps" = some (JVal.jarr steps) →
      ∀ hlen : (step_id - 1).toNat < steps.length,
      steps.get ⟨(step_id - 1).toNat, hlen⟩ = JVal.jobj sf →
      (update_plan_status r now plan_id step_id status =
        Except.ok (r.setEntry plan_id ⟨RVal.rjson (JVal.jobj (setAssoc fields "steps"
          (JVal.jarr (steps.set (step_id - 1).toNat
            (JVal.jobj (setAssoc sf "status" (JVal.jstr status))))))), exp⟩, "ok") ∧
      (r.setEntry plan_id ⟨RVal.rjson (JVal.jobj (setAssoc fields "steps"
          (JVal.jarr (steps.set (step_id - 1).toNat
            (JVal.jobj (setAssoc sf "status" (JVal.jstr status))))))), exp⟩).find
          plan_id =
        some ⟨RVal.rjson (JVal.jobj (setAssoc fields "steps"
          (JVal.jarr (steps.set (step_id - 1).toNat
            (JVal.jobj (setAssoc sf "status" (JVal.jstr status))))))), exp⟩ ∧
      (∀ t k, k ≠ plan_id →
        (r.setEntry plan_id ⟨RVal.rjson (JVal.jobj (setAssoc fields "steps"
          (JVal.jarr (steps.set (step_id - 1).toNat
            (JVal.jobj (setAssoc sf "status" (JVal.jstr status))))))), exp⟩).liveGet
            t k = r.liveGet t k) ∧
      (setAssoc sf "status" (JVal.jstr status)).lookup "status" =
        some (JVal.jstr status) ∧
      (∀ f, f ≠ "status" →
        (setAssoc sf "status" (JVal.jstr status)).lookup f = sf.lookup f) ∧
      (∀ j, j ≠ (step_id - 1).toNat →
        (steps.set (step_id - 1).toNat
          (JVal.jobj (setAssoc sf "status" (JVal.jstr status)))).get? j =
          steps.get? j) ∧
      (∀ f, f ≠ "steps" →
        (setAssoc fields "steps" (JVal.jarr (steps.set (step_id - 1).toNat
          (JVal.jobj (setAssoc sf "status" (JVal.jstr status)))))).lookup f =
          fields.lookup f))) := by
  constructor
  · intro hnone
    simp [update_plan_status, Redis.jsonSetStepStatus, hnone, Except.map]
  · intro fields steps sf exp hlive hsteps hlen hget
    have hidx : 0 ≤ step_id - 1 ∧ (step_id - 1).toNat < steps.length :=
      ⟨by omega, hlen⟩
    have hok : update_plan_status r now plan_id step_id status =
        Except.ok (r.setEntry plan_id ⟨RVal.rjson (JVal.jobj (setAssoc fields "steps"
          (JVal.jarr (steps.set (step_id - 1).toNat
            (JVal.jobj (setAssoc sf "status" (JVal.jstr status))))))), exp⟩, "ok") := by
      unfold update_plan_status Redis.jsonSetStepStatus
      rw [hlive]
      simp only [hsteps, dif_pos hidx]
      rw [List.get_eq_getElem] at hget
      simp only [List.get_eq_getElem, hget]
      rfl
    refine ⟨hok, find_setEntry_self _ _ _, ?_, lookup_setAssoc_self _ _ _, ?_, ?_, ?_⟩
    · intro t k hk
      exact liveGet_setEntry_ne _ _ _ _ _ hk
    · intro f hf
      exact lookup_setAssoc_ne _ _ _ _ hf
    · intro j hj
      exact List.get?_set_ne _ _ (Ne.symm hj)
    · intro f hf
      exact lookup_setAssoc_ne _ _ _ _ hf

/-- C6 witness: on a stored one-step plan (`steps[0].id == 1`, status
`"pending"`), `update_plan_status(_, 1, "completed")` flips exactly
`steps[0].status` to `"completed"`; on an empty store it fails with
`PlanNotFound`. -/
theorem C6_update_step_status_witness :
    update_plan_status (Redis.empty.setEntry "p1" ⟨RVal.rjson (JVal.jobj
        [("id", JVal.jnum 1), ("goal", JVal.jstr "g"),
          ("steps", JVal.jarr [JVal.jobj [("id", JVal.jnum 1),
            ("agent", JVal.jstr "researcher"), ("status", JVal.jstr "pending")]])]),
        none⟩) 0 "p1" 1 "completed" =
      Except.ok ((Redis.empty.setEntry "p1" ⟨RVal.rjson (JVal.jobj
        [("id", JVal.jnum 1), ("goal", JVal.jstr "g"),
          ("steps", JVal.jarr [JVal.jobj [("id", JVal.jnum 1),
            ("agent", JVal.jstr "researcher"), ("status", JVal.jstr "pending")]])]),
        none⟩).setEntry "p1" ⟨RVal.rjson (JVal.jobj
        [("id", JVal.jnum 1), ("goal", JVal.jstr "g"),
          ("steps", JVal.jarr [JVal.jobj [("id", JVal.jnum 1),
            ("agent", JVal.jstr "researcher"), ("status", JVal.jstr "completed")]])]),
        none⟩, "ok") ∧
    update_plan_status Redis.empty 0 "p1" 1 "completed" =
      Except.error MemErr.planNotFound := by
  constructor
  · exact ((C6_update_step_status (Redis.empty.setEntry "p1" ⟨RVal.rjson (JVal.jobj
        [("id", JVal.jnum 1), ("goal", JVal.jstr "g"),
          ("steps", JVal.jarr [JVal.jobj [("id", JVal.jnum 1),
            ("agent", JVal.jstr "researcher"), ("status", JVal.jstr "pending")]])]),
        none⟩) 0 "p1" 1 "completed" (by decide)).2
      [("id", JVal.jnum 1), ("goal", JVal.jstr "g"),
        ("steps", JVal.jarr [JVal.jobj [("id", JVal.jnum 1),
          ("agent", JVal.jstr "researcher"), ("status", JVal.jstr "pending")]])]
      [JVal.jobj [("id", JVal.jnum 1), ("agent", JVal.jstr "researcher"),
        ("status", JVal.jstr "pending")]]
      [("id", JVal.jnum 1), ("agent", JVal.jstr "researcher"),
        ("status", JVal.jstr "pending")]
      none (by rfl) (by rfl) (by decide) (by rfl)).1
  · exact (C6_update_step_status Redis.empty 0 "p1" 1 "completed" (by decide)).1 (by rfl)

/-- C7: after a completed evictor sweep with a non-negative threshold,
every remaining cache entry has computed age ≤ the threshold; every listed
entry whose computed age exceeded the threshold has been deleted; and an
entry whose `ctime` is a truthy but unparsable string gets age 0 and
survives. -/
theorem C7_evictor_sweep (parseFloat : String → Option Int) (now max_age : Int)
    (files files' : List FileInfo)
    (hmax : 0 ≤ max_age)
    (hsweep : remove_stale_files parseFloat now files max_age = some files') :
    (∀ fi ∈ files', ∃ a, get_file_age parseFloat now fi = some a ∧ a ≤ max_age) ∧
    (∀ fi ∈ files, ∀ a, get_file_age parseFloat now fi = some a → a > max_age →
      fi ∉ files') ∧
    (∀ fi ∈ files, ∀ s, fi.ctime = some (CTimeVal.cstr s) → s ≠ "" →
      parseFloat s = none →
      get_file_age parseFloat now fi = some 0 ∧ fi ∈ files') := by
  unfold remove_stale_files at hsweep
  split_ifs at hsweep with hall
  · injection hsweep with hfiles
    subst hfiles
    refine ⟨?_, ?_, ?_⟩
    · intro fi hfi
      rcases List.mem_filter.mp hfi with ⟨hmem, hpred⟩
      have hsome := List.all_eq_true.mp hall fi hmem
      rcases Option.isSome_iff_exists.mp hsome with ⟨a, ha⟩
      refine ⟨a, ha, ?_⟩
      have hle := of_decide_eq_true hpred
      rw [ha] at hle
      simpa using hle
    · intro fi hmem a ha hgt hfi
      rcases List.mem_filter.mp hfi with ⟨_, hpred⟩
      have hle := of_decide_eq_true hpred
      rw [ha] at hle
      simp only [Option.getD_some] at hle
      omega
    · intro fi hmem s hcs hne hparse
      have hage : get_file_age parseFloat now fi = some 0 := by
        unfold get_file_age
        rw [hcs]
        simp [ctimeTruthy, hne, hparse]
      refine ⟨hage, ?_⟩
      refine List.mem_filter.mpr ⟨hmem, ?_⟩
      rw [hage]
      simpa using hmax

/-- C7 witness: a sweep at time 5000 over a fresh file (age 1000), a stale
file (age 4900) and a file with an unparsable string timestamp keeps
exactly the fresh and the unparsable entries. -/
theorem C7_evictor_sweep_witness :
    (0 : Int) ≤ 3600 ∧
    remove_stale_files (fun _ => none) 5000
      [⟨"/tmp/test_cache/a.md", some (CTimeVal.cnum 4000), none⟩,
        ⟨"/tmp/test_cache/b.md", some (CTimeVal.cnum 100), none⟩,
        ⟨"/tmp/test_cache/c.md", some (CTimeVal.cstr "invalid"), none⟩] 3600 =
      some [⟨"/tmp/test_cache/a.md", some (CTimeVal.cnum 4000), none⟩,
        ⟨"/tmp/test_cache/c.md", some (CTimeVal.cstr "invalid"), none⟩] ∧
    (∀ fi ∈ [(⟨"/tmp/test_cache/a.md", some (CTimeVal.cnum 4000), none⟩ : FileInfo),
        ⟨"/tmp/test_cache/c.md", some (CTimeVal.cstr "invalid"), none⟩],
      ∃ a, get_file_age (fun _ => none) 5000 fi = some a ∧ a ≤ 3600) := by
  refine ⟨by decide, by decide, ?_⟩
  exact (C7_evictor_sweep (fun _ => none) 5000 3600
    [⟨"/tmp/test_cache/a.md", some (CTimeVal.cnum 4000), none⟩,
      ⟨"/tmp/test_cache/b.md", some (CTimeVal.cnum 100), none⟩,
      ⟨"/tmp/test_cache/c.md", some (CTimeVal.cstr "invalid"), none⟩]
    [⟨"/tmp/test_cache/a.md", some (CTimeVal.cnum 4000), none⟩,
      ⟨"/tmp/test_cache/c.md", some (CTimeVal.cstr "invalid"), none⟩]
    (by decide) (by decide)).1

/-- One unfolding step of the tenacity loop. -/
theorem tenacityGo_step (env : FetchEnv) (cfg : AppConfig) (url : String)
    (uc : Bool) (a fuel : Nat) (st : FetchSt) (ws : List ℚ) :
    tenacityGo env cfg url uc a (fuel + 1) st ws =
      match fetch_once env cfg url uc st with
      | (Except.ok v, st1) => (Except.ok v, st1, ws)
      | (Except.error e, st1) =>
        if retryable e ∧ fuel ≠ 0 then
          tenacityGo env cfg url uc (a + 1) fuel st1 (ws ++ [backoffWait a])
        else (Except.error e, st1, ws) := rfl

/-- C1 (amended: a bad locator or unsupported scheme surfacing in the
backend phase is wrapped into an `OSError` by the blanket
`except Exception` handler and is therefore *retried*, not propagated
immediately — see `C1_retry_policy_counterexample`): the pipeline body is
retried exactly on `OSError`-class failures, up to 3 attempts, with
exponential backoff `0.5` then `1.0` (doubling — see `backoffWait` for
tenacity's `attempt_number - 1` exponent); a success or a
`ValueError`-class failure (conversion failure, cache decode failure) on
any attempt ends the loop at once, so after two retryable failures the
third attempt's outcome is final — with a backend that fails twice then
succeeds, fetch returns the converted text of the third attempt. -/
theorem C1_retry_policy (env : FetchEnv) (cfg : AppConfig) (url : String)
    (uc : Bool) (st : FetchSt) :
    (∀ v st1, fetch_once env cfg url uc st = (Except.ok v, st1) →
      fetch_context env cfg url uc st = (Except.ok v, st1, [])) ∧
    (∀ e st1, fetch_once env cfg url uc st = (Except.error e, st1) →
      retryable e = false →
      fetch_context env cfg url uc st = (Except.error e, st1, [])) ∧
    (∀ e1 st1 e2 st2 r3 st3,
      fetch_once env cfg url uc st = (Except.error e1, st1) →
      retryable e1 = true →
      fetch_once env cfg url uc st1 = (Except.error e2, st2) →
      retryable e2 = true →
      fetch_once env cfg url uc st2 = (r3, st3) →
      fetch_context env cfg url uc st =
        (r3, st3, [backoffWait 1, backoffWait 2])) ∧
    backoffWait 1 = 1 / 2 ∧ backoffWait 2 = 2 * backoffWait 1 := by
  refine ⟨?_, ?_, ?_, ?_, ?_⟩
  · intro v st1 h1
    show tenacityGo env cfg url uc 1 (2 + 1) st [] = _
    rw [tenacityGo_step, h1]
  · intro e st1 h1 hr
    show tenacityGo env cfg url uc 1 (2 + 1) st [] = _
    rw [tenacityGo_step, h1]
    simp [hr]
  · intro e1 st1 e2 st2 r3 st3 h1 hr1 h2 hr2 h3
    show tenacityGo env cfg url uc 1 (2 + 1) st [] = _
    rw [tenacityGo_step, h1]
    simp only [hr1, true_and, if_pos (by omega : (2 : Nat) ≠ 0)]
    show tenacityGo env cfg url uc 2 (1 + 1) st1 _ = _
    rw [tenacityGo_step, h2]
    simp only [hr2, true_and, if_pos (by omega : (1 : Nat) ≠ 0)]
    show tenacityGo env cfg url uc 3 (0 + 1) st2 _ = _
    rw [tenacityGo_step, h3]
    cases r3 with
    | ok v => rfl
    | error e => simp
  · norm_num [backoffWait]
  · norm_num [backoffWait]

/-- C1 witness (Scenario D): `fetch("https://x/doc.pdf", useCache=true)`
against a backend that fails twice then succeeds returns the converted
text, performs exactly 3 backend attempts (final `backendCalls = 3`), and
waits `0.5` then `1.0` between attempts. -/
theorem C1_retry_policy_witness :
    fetch_context ⟨fun _ => "k",
        fun n => if n < 2 then Except.error "backend down" else Except.ok "PDFBYTES",
        fun _ _ => "# converted", false⟩ testConfig "https://x/doc.pdf" true
        ⟨⟨[]⟩, 0⟩ =
      (Except.ok "# converted",
        ⟨⟨[("/tmp/test_cache/k.md", CacheEntry.file (CVal.text "# converted"))]⟩, 3⟩,
        [backoffWait 1, backoffWait 2]) ∧
    backoffWait 1 = 1 / 2 ∧ backoffWait 2 = 2 * backoffWait 1 := by
  have h := C1_retry_policy ⟨fun _ => "k",
    fun n => if n < 2 then Except.error "backend down" else Except.ok "PDFBYTES",
    fun _ _ => "# converted", false⟩ testConfig "https://x/doc.pdf" true ⟨⟨[]⟩, 0⟩
  refine ⟨?_, h.2.2.2.1, h.2.2.2.2⟩
  exact h.2.2.1 (PyErr.oserr "Failed to load file from https://x/doc.pdf") ⟨⟨[]⟩, 1⟩
    (PyErr.oserr "Failed to load file from https://x/doc.pdf") ⟨⟨[]⟩, 2⟩
    (Except.ok "# converted")
    ⟨⟨[("/tmp/test_cache/k.md", CacheEntry.file (CVal.text "# converted"))]⟩, 3⟩
    (by rfl) (by rfl) (by rfl) (by rfl) (by rfl)

/-- C1 counterexample to the claim as stated: an unsupported-scheme
locator is a validation failure (`get_storage_opts` raises `ValueError`
"Unsupported protocol"), yet `fetch` retries it through all 3 attempts
(two backoff waits were performed) and surfaces it as an `OSError`,
because the blanket `except Exception` in the backend phase re-raises
everything as `OSError` — it does not propagate immediately. -/
theorem C1_retry_policy_counterexample :
    get_storage_opts "ftp" = Except.error (PyErr.valerr "Unsupported protocol: ftp") ∧
    fetch_context ⟨fun _ => "k", fun _ => Except.error "x", fun _ _ => "md", false⟩
        testConfig "ftp://host/a.txt" false ⟨⟨[]⟩, 0⟩ =
      (Except.error (PyErr.oserr "Failed to load file from ftp://host/a.txt"),
        ⟨⟨[]⟩, 0⟩, [backoffWait 1, backoffWait 2]) ∧
    ([backoffWait 1, backoffWait 2] : List ℚ) ≠ [] := by
  exact ⟨by rfl, by rfl, by simp⟩

/-! Cache-read case lemmas, shared by the fetch-pipeline claims. -/

theorem getFs_cache (cfg : AppConfig) (dir : String)
    (hcfg : splitScheme cfg.cache_path = some ("file", dir)) :
    get_filesystem cfg.cache_path = Except.ok "file" := by
  unfold get_filesystem
  rw [hcfg]
  rfl

theorem load_cache_none (digest : String → String) (cfg : AppConfig)
    (fs : CacheFS) (url dir : String)
    (hcfg : splitScheme cfg.cache_path = some ("file", dir))
    (h : fs.entries.lookup (dir ++ "/" ++ digest url ++ ".md") = none) :
    load_cache_file digest cfg fs url = Except.error (PyErr.oserr
      ("Cache file " ++ (dir ++ "/" ++ digest url ++ ".md") ++ " does not exist")) := by
  unfold load_cache_file
  rw [hcfg, getFs_cache cfg dir hcfg]
  dsimp only
  rw [h]

theorem load_cache_notAFile (digest : String → String) (cfg : AppConfig)
    (fs : CacheFS) (url dir : String)
    (hcfg : splitScheme cfg.cache_path = some ("file", dir))
    (h : fs.entries.lookup (dir ++ "/" ++ digest url ++ ".md") =
      some CacheEntry.notAFile) :
    load_cache_file digest cfg fs url = Except.error (PyErr.oserr
      ("Cache file " ++ (dir ++ "/" ++ digest url ++ ".md") ++ " is not a file")) := by
  unfold load_cache_file
  rw [hcfg, getFs_cache cfg dir hcfg]
  dsimp only
  rw [h]

theorem load_cache_unopenable (digest : String → String) (cfg : AppConfig)
    (fs : CacheFS) (url dir : String)
    (hcfg : splitScheme cfg.cache_path = some ("file", dir))
    (h : fs.entries.lookup (dir ++ "/" ++ digest url ++ ".md") =
      some CacheEntry.unopenable) :
    load_cache_file digest cfg fs url = Except.error (PyErr.oserr
      ("Cache file " ++ (dir ++ "/" ++ digest url ++ ".md") ++ " cannot be opened")) := by
  unfold load_cache_file
  rw [hcfg, getFs_cache cfg dir hcfg]
  dsimp only
  rw [h]

theorem load_cache_empty (digest : String → String) (cfg : AppConfig)
    (fs : CacheFS) (url dir : String)
    (hcfg : splitScheme cfg.cache_path = some ("file", dir))
    (h : fs.entries.lookup (dir ++ "/" ++ digest url ++ ".md") =
      some (CacheEntry.file (CVal.text ""))) :
    load_cache_file digest cfg fs url = Except.error (PyErr.valerr
      ("Cache file " ++ (dir ++ "/" ++ digest url ++ ".md") ++ " is empty")) := by
  unfold load_cache_file
  rw [hcfg, getFs_cache cfg dir hcfg]
  dsimp only
  rw [h]
  rfl

theorem load_cache_nontext (digest : String → String) (cfg : AppConfig)
    (fs : CacheFS) (url dir : String)
    (hcfg : splitScheme cfg.cache_path = some ("file", dir))
    (h : fs.entries.lookup (dir ++ "/" ++ digest url ++ ".md") =
      some (CacheEntry.file CVal.nontext)) :
    load_cache_file digest cfg fs url = Except.error (PyErr.valerr
      ("Cache file " ++ (dir ++ "/" ++ digest url ++ ".md") ++ " is not a string")) := by
  unfold load_cache_file
  rw [hcfg, getFs_cache cfg dir hcfg]
  dsimp only
  rw [h]

/-- A cache-read `OSError` is swallowed and the body proceeds to a fresh
backend read (one more backend call is performed). -/
theorem fetch_once_falls_through (env : FetchEnv) (cfg : AppConfig)
    (st : FetchSt) (url proto : String) (m : String)
    (hload : load_cache_file env.digest cfg st.cache url =
      Except.error (PyErr.oserr m))
    (hfs : get_filesystem url = Except.ok proto) :
    (fetch_once env cfg url true st).2.backendCalls = st.backendCalls + 1 := by
  simp only [fetch_once, hload, hfs, if_true]
  cases hb : env.backendReads st.backendCalls with
  | error e => rfl
  | ok bytes =>
    dsimp only
    cases hw : write_cache_file env.digest cfg st.cache env.writeFails url
        (env.convert (get_converter_opts url) bytes) with
    | error e => rfl
    | ok c =>
      split
      · rfl
      · rename_i st2 heq
        simp only [Except.map] at heq
        cases heq
        split <;> rfl

/-- A cache-read `ValueError` propagates out of the body unchanged,
without a backend read. -/
theorem fetch_once_valerr (env : FetchEnv) (cfg : AppConfig) (st : FetchSt)
    (url m : String)
    (hload : load_cache_file env.digest cfg st.cache url =
      Except.error (PyErr.valerr m)) :
    fetch_once env cfg url true st = (Except.error (PyErr.valerr m), st) := by
  simp only [fetch_once, hload, if_true]

/-- A cache hit returns immediately. -/
theorem fetch_once_hit (env : FetchEnv) (cfg : AppConfig) (st : FetchSt)
    (url content : String)
    (hload : load_cache_file env.digest cfg st.cache url = Except.ok content) :
    fetch_once env cfg url true st = (Except.ok content, st) := by
  simp only [fetch_once, hload, if_true]

/-- C4 (amended: only the *OS-level* cases — no entry, not a regular
file, unopenable — are folded into the recoverable Miss that falls
through to a fresh backend fetch; an entry that is empty or not decodable
as text raises a `ValueError` that is not caught by the Miss handler and
propagates immediately, unretried, with no backend fetch): cache-read
outcome classification and its effect on the pipeline. -/
theorem C4_cache_read_classification (env : FetchEnv) (cfg : AppConfig)
    (st : FetchSt) (url dir : String)
    (hcfg : splitScheme cfg.cache_path = some ("file", dir)) :
    (st.cache.entries.lookup (dir ++ "/" ++ env.digest url ++ ".md") = none →
      ∃ m, load_cache_file env.digest cfg st.cache url =
        Except.error (PyErr.oserr m)) ∧
    (st.cache.entries.lookup (dir ++ "/" ++ env.digest url ++ ".md") =
        some CacheEntry.notAFile →
      ∃ m, load_cache_file env.digest cfg st.cache url =
        Except.error (PyErr.oserr m)) ∧
    (st.cache.entries.lookup (dir ++ "/" ++ env.digest url ++ ".md") =
        some CacheEntry.unopenable →
      ∃ m, load_cache_file env.digest cfg st.cache url =
        Except.error (PyErr.oserr m)) ∧
    (st.cache.entries.lookup (dir ++ "/" ++ env.digest url ++ ".md") =
        some (CacheEntry.file (CVal.text "")) →
      ∃ m, load_cache_file env.digest cfg st.cache url =
        Except.error (PyErr.valerr m)) ∧
    (st.cache.entries.lookup (dir ++ "/" ++ env.digest url ++ ".md") =
        some (CacheEntry.file CVal.nontext) →
      ∃ m, load_cache_file env.digest cfg st.cache url =
        Except.error (PyErr.valerr m)) ∧
    (∀ m proto, load_cache_file env.digest cfg st.cache url =
        Except.error (PyErr.oserr m) →
      get_filesystem url = Except.ok proto →
      (fetch_once env cfg url true st).2.backendCalls = st.backendCalls + 1) ∧
    (∀ m, load_cache_file env.digest cfg st.cache url =
        Except.error (PyErr.valerr m) →
      fetch_once env cfg url true st = (Except.error (PyErr.valerr m), st) ∧
      fetch_context env cfg url true st =
        (Except.error (PyErr.valerr m), st, [])) := by
  refine ⟨fun h => ⟨_, load_cache_none _ cfg _ url dir hcfg h⟩,
    fun h => ⟨_, load_cache_notAFile _ cfg _ url dir hcfg h⟩,
    fun h => ⟨_, load_cache_unopenable _ cfg _ url dir hcfg h⟩,
    fun h => ⟨_, load_cache_empty _ cfg _ url dir hcfg h⟩,
    fun h => ⟨_, load_cache_nontext _ cfg _ url dir hcfg h⟩,
    fun m proto hl hf => fetch_once_falls_through env cfg st url proto m hl hf,
    fun m hl => ⟨fetch_once_valerr env cfg st url m hl, ?_⟩⟩
  show tenacityGo env cfg url true 1 (2 + 1) st [] = _
  rw [tenacityGo_step, fetch_once_valerr env cfg st url m hl]
  simp [retryable]

/-- C4 witness: with an empty cache, the read misses with an `OSError`
and the pipeline performs a fresh backend read; with an empty *entry*,
the read raises a `ValueError`. -/
theorem C4_cache_read_classification_witness :
    (∃ m, load_cache_file (fun _ => "k") testConfig ⟨[]⟩ "https://x/doc.txt" =
      Except.error (PyErr.oserr m)) ∧
    (fetch_once ⟨fun _ => "k", fun _ => Except.ok "BYTES", fun _ _ => "md", false⟩
      testConfig "https://x/doc.txt" true ⟨⟨[]⟩, 0⟩).2.backendCalls = 0 + 1 ∧
    (∃ m, load_cache_file (fun _ => "k") testConfig
      ⟨[("/tmp/test_cache/k.md", CacheEntry.file (CVal.text ""))]⟩
      "https://x/doc.txt" = Except.error (PyErr.valerr m)) := by
  have h1 := C4_cache_read_classification
    ⟨fun _ => "k", fun _ => Except.ok "BYTES", fun _ _ => "md", false⟩
    testConfig ⟨⟨[]⟩, 0⟩ "https://x/doc.txt" "/tmp/test_cache" (by rfl)
  have h2 := C4_cache_read_classification
    ⟨fun _ => "k", fun _ => Except.ok "BYTES", fun _ _ => "md", false⟩
    testConfig ⟨⟨[("/tmp/test_cache/k.md", CacheEntry.file (CVal.text ""))]⟩, 0⟩
    "https://x/doc.txt" "/tmp/test_cache" (by rfl)
  refine ⟨h1.1 (by rfl), ?_, h2.2.2.2.1 (by rfl)⟩
  exact h1.2.2.2.2.2.1 "Cache file /tmp/test_cache/k.md does not exist" "https"
    (by rfl) (by rfl)

/-- C4 counterexample to the claim as stated: with an existing but empty
cache entry for the locator's digest, fetch propagates a `ValueError`
immediately — the final state still shows 0 backend calls, so it did
*not* fall through to a fresh backend fetch, and the outcome is not the
recoverable Miss (`OSError`) class. -/
theorem C4_cache_read_classification_counterexample :
    fetch_context ⟨fun _ => "k", fun _ => Except.ok "BYTES", fun _ _ => "md", false⟩
        testConfig "https://x/doc.txt" true
        ⟨⟨[("/tmp/test_cache/k.md", CacheEntry.file (CVal.text ""))]⟩, 0⟩ =
      (Except.error (PyErr.valerr "Cache file /tmp/test_cache/k.md is empty"),
        ⟨⟨[("/tmp/test_cache/k.md", CacheEntry.file (CVal.text ""))]⟩, 0⟩, []) ∧
    (∀ m, (PyErr.valerr "Cache file /tmp/test_cache/k.md is empty") ≠
      PyErr.oserr m) := by
  exact ⟨by rfl, fun m h => PyErr.noConfusion h⟩

/-- C5 (amended: a failure while writing the converted text into the
cache *does* fail the fetch attempt — there is no exception handler
around `write_cache_file` — and because it raises `OSError` the retry
wrapper treats it as transient and re-runs the whole body, backend read
included; the freshly fetched converted text is not returned): after a
cache miss and a successful backend read, a failing cache write makes the
body raise the write's `OSError`, a retryable error. -/
theorem C5_cache_write_failure (env : FetchEnv) (cfg : AppConfig)
    (st : FetchSt) (url dir proto bytes : String) (m : String)
    (hcfg : splitScheme cfg.cache_path = some ("file", dir))
    (hwf : env.writeFails = true)
    (hload : load_cache_file env.digest cfg st.cache url =
      Except.error (PyErr.oserr m))
    (hfs : get_filesystem url = Except.ok proto)
    (hread : env.backendReads st.backendCalls = Except.ok bytes) :
    fetch_once env cfg url true st =
      (Except.error (PyErr.oserr "cache write failed"),
        ⟨st.cache, st.backendCalls + 1⟩) ∧
    retryable (PyErr.oserr "cache write failed") = true := by
  have hw : write_cache_file env.digest cfg st.cache env.writeFails url
      (env.convert (get_converter_opts url) bytes) =
      Except.error (PyErr.oserr "cache write failed") := by
    unfold write_cache_file
    rw [hcfg, getFs_cache cfg dir hcfg]
    dsimp only
    rw [hwf]
    rfl
  refine ⟨?_, rfl⟩
  simp only [fetch_once, hload, hfs, if_true]
  rw [hread]
  dsimp only
  rw [hw]
  rfl

/-- C5 witness: a concrete failing-cache-write attempt raises the write's
`OSError` (retryable) instead of returning the converted text. -/
theorem C5_cache_write_failure_witness :
    fetch_once ⟨fun _ => "k", fun _ => Except.ok "BYTES", fun _ _ => "# md", true⟩
        testConfig "https://x/a.txt" true ⟨⟨[]⟩, 0⟩ =
      (Except.error (PyErr.oserr "cache write failed"), ⟨⟨[]⟩, 0 + 1⟩) ∧
    retryable (PyErr.oserr "cache write failed") = true :=
  C5_cache_write_failure ⟨fun _ => "k", fun _ => Except.ok "BYTES",
      fun _ _ => "# md", true⟩ testConfig ⟨⟨[]⟩, 0⟩ "https://x/a.txt"
      "/tmp/test_cache" "https" "BYTES"
      "Cache file /tmp/test_cache/k.md does not exist"
      (by rfl) (by rfl) (by rfl) (by rfl) (by rfl)

/-- C5 counterexample to the claim as stated: with `useCache = true`, a
successful fetch-and-convert (the converter yields `"# md"`) whose cache
write keeps failing makes the overall fetch *fail* after 3 attempts
(3 backend reads, two backoff waits) — the freshly fetched converted text
is not returned to the caller. -/
theorem C5_cache_write_failure_counterexample :
    fetch_context ⟨fun _ => "k", fun _ => Except.ok "BYTES", fun _ _ => "# md", true⟩
        testConfig "https://x/a.txt" true ⟨⟨[]⟩, 0⟩ =
      (Except.error (PyErr.oserr "cache write failed"), ⟨⟨[]⟩, 3⟩,
        [backoffWait 1, backoffWait 2]) ∧
    (∀ s : String,
      (Except.error (PyErr.oserr "cache write failed") : Except PyErr String) ≠
        Except.ok s) := by
  exact ⟨by rfl, fun s h => Except.noConfusion h⟩

/-- C10: with `useCache = true`, a cache miss followed by a successful
backend read whose conversion yields empty text writes the empty
converted text into the cache *before* raising the empty-conversion
`ValueError` (which is not retried): the final cache state contains an
entry for the locator's digest holding `""`, and a later cache read of
that locator hits the empty entry — it raises the `ValueError` "is empty"
rather than the Miss-class `OSError` "does not exist". -/
theorem C10_empty_conversion_caches (env : FetchEnv) (cfg : AppConfig)
    (st : FetchSt) (url dir proto bytes : String)
    (hcfg : splitScheme cfg.cache_path = some ("file", dir))
    (hmiss : st.cache.entries.lookup (dir ++ "/" ++ env.digest url ++ ".md") = none)
    (hfs : get_filesystem url = Except.ok proto)
    (hread : env.backendReads st.backendCalls = Except.ok bytes)
    (hconv : env.convert (get_converter_opts url) bytes = "")
    (hwf : env.writeFails = false) :
    fetch_context env cfg url true st =
      (Except.error (PyErr.valerr
          ("Failed to convert file " ++ url ++ " to Markdown")),
        ⟨⟨setAssoc st.cache.entries (dir ++ "/" ++ env.digest url ++ ".md")
          (CacheEntry.file (CVal.text ""))⟩, st.backendCalls + 1⟩, []) ∧
    (setAssoc st.cache.entries (dir ++ "/" ++ env.digest url ++ ".md")
      (CacheEntry.file (CVal.text ""))).lookup
      (dir ++ "/" ++ env.digest url ++ ".md") =
      some (CacheEntry.file (CVal.text "")) ∧
    load_cache_file env.digest cfg ⟨setAssoc st.cache.entries (dir ++ "/" ++
        env.digest url ++ ".md") (CacheEntry.file (CVal.text ""))⟩ url =
      Except.error (PyErr.valerr
        ("Cache file " ++ (dir ++ "/" ++ env.digest url ++ ".md") ++ " is empty")) := by
  have hload := load_cache_none env.digest cfg st.cache url dir hcfg hmiss
  have hw : write_cache_file env.digest cfg st.cache env.writeFails url "" =
      Except.ok ⟨setAssoc st.cache.entries (dir ++ "/" ++ env.digest url ++ ".md")
        (CacheEntry.file (CVal.text ""))⟩ := by
    unfold write_cache_file
    rw [hcfg, getFs_cache cfg dir hcfg]
    dsimp only
    rw [hwf]
    rfl
  have honce : fetch_once env cfg url true st =
      (Except.error (PyErr.valerr
          ("Failed to convert file " ++ url ++ " to Markdown")),
        ⟨⟨setAssoc st.cache.entries (dir ++ "/" ++ env.digest url ++ ".md")
          (CacheEntry.file (CVal.text ""))⟩, st.backendCalls + 1⟩) := by
    simp only [fetch_once, hload, hfs, if_true]
    rw [hread]
    dsimp only
    rw [hconv, hw]
    rfl
  refine ⟨?_, lookup_setAssoc_self _ _ _, ?_⟩
  · show tenacityGo env cfg url true 1 (2 + 1) st [] = _
    rw [tenacityGo_step, honce]
    simp [retryable]
  · exact load_cache_empty env.digest cfg _ url dir hcfg (lookup_setAssoc_self _ _ _)

/-- C10 witness: a concrete empty conversion leaves an empty cache entry
at the locator's digest, and the subsequent cache read fails with the
"is empty" `ValueError`. -/
theorem C10_empty_conversion_caches_witness :
    fetch_context ⟨fun _ => "k", fun _ => Except.ok "BYTES", fun _ _ => "", false⟩
        testConfig "https://x/doc.txt" true ⟨⟨[]⟩, 0⟩ =
      (Except.error (PyErr.valerr
          ("Failed to convert file " ++ "https://x/doc.txt" ++ " to Markdown")),
        ⟨⟨setAssoc [] ("/tmp/test_cache" ++ "/" ++ "k" ++ ".md")
          (CacheEntry.file (CVal.text ""))⟩, 0 + 1⟩, []) ∧
    (setAssoc ([] : List (String × CacheEntry))
      ("/tmp/test_cache" ++ "/" ++ "k" ++ ".md") (CacheEntry.file (CVal.text ""))).lookup
      ("/tmp/test_cache" ++ "/" ++ "k" ++ ".md") =
      some (CacheEntry.file (CVal.text "")) ∧
    load_cache_file (fun _ => "k") testConfig ⟨setAssoc []
        ("/tmp/test_cache" ++ "/" ++ "k" ++ ".md") (CacheEntry.file (CVal.text ""))⟩
      "https://x/doc.txt" =
      Except.error (PyErr.valerr
        ("Cache file " ++ ("/tmp/test_cache" ++ "/" ++ "k" ++ ".md") ++
          " is empty")) :=
  C10_empty_conversion_caches ⟨fun _ => "k", fun _ => Except.ok "BYTES",
    fun _ _ => "", false⟩ testConfig ⟨⟨[]⟩, 0⟩ "https://x/doc.txt"
    "/tmp/test_cache" "https" "BYTES" (by rfl) (by rfl) (by rfl) (by rfl)
    (by rfl) (by rfl)

end MCPBlackboard
